import Mathlib

/-!
# stash-filter: the filtered-scenes page controller and the want buttons

A shallow embedding of `static/js/filtered-scenes.js` (class `FilteredScenesManager`) and of the
three want-button handlers in `static/js/dashboard-whisparr.js`,
`static/js/whisparr-integration.js` and `static/want-button-fix.js`.

Conventions of the embedding

* JavaScript strings are `String`; the text algorithms work on the character list `s.data`.
* Numbers that the controller handles (scene ids, page numbers, counters) are integers, each
  standing for the Number nearest to it; the result of `parseInt` is `Option Int`, with `none`
  standing for `NaN`.
* A `Set` is the list of its members in insertion order, an object is the list of its own
  properties in property order; reads and assignments on a plain object see what it inherits
  from `Object.prototype`.
* An `async` method takes the outcome of every request it awaits as an argument and returns
  the state after its continuation has run, together with the effects it produced in order.
  Handlers do not interleave.
* The page is assumed to contain the elements the controller looks up by id.
* A want-button handler takes the button it was called on and what the request came back with,
  and returns the states the button goes through; the delay of the reset timer is not modelled.
-/

namespace FilteredScenes

/-! ## JavaScript primitives -/

/-- Code points that `String.prototype.trim` strips and `parseInt` skips: the ECMAScript
`WhiteSpace` and `LineTerminator` productions. -/
def isJsWhiteSpace (c : Char) : Bool :=
  let n := c.toNat
  n == 0x09 || n == 0x0A || n == 0x0B || n == 0x0C || n == 0x0D || n == 0x20 || n == 0xA0 ||
  n == 0x1680 || (0x2000 ≤ n && n ≤ 0x200A) || n == 0x2028 || n == 0x2029 || n == 0x202F ||
  n == 0x205F || n == 0x3000 || n == 0xFEFF

/-- Drop the longest suffix of characters satisfying `p`. -/
def dropTrailing (p : Char → Bool) (cs : List Char) : List Char :=
  ((cs.reverse).dropWhile p).reverse

/-- `String.prototype.trim`. -/
def jsTrim (s : String) : String :=
  ⟨dropTrailing isJsWhiteSpace (s.data.dropWhile isJsWhiteSpace)⟩

/-- Truthiness of a string: every string but the empty one. -/
def strTruthy (s : String) : Bool :=
  !s.data.isEmpty

/-- Value of a character as a digit in the given radix (10 or 16), if it is one. -/
def digitValue (radix : Nat) (c : Char) : Option Nat :=
  let n := c.toNat
  if 48 ≤ n ∧ n ≤ 57 then some (n - 48)
  else if radix = 16 ∧ 97 ≤ n ∧ n ≤ 102 then some (n - 87)
  else if radix = 16 ∧ 65 ≤ n ∧ n ≤ 70 then some (n - 55)
  else none

/-- Read the longest prefix of digits, most significant first; `acc` is the value read so far
and the flag tells whether any digit has been read. -/
def readDigits (radix : Nat) : List Char → Nat → Bool → Option Nat
  | [], acc, seen => if seen then some acc else none
  | c :: cs, acc, seen =>
    match digitValue radix c with
    | some d => readDigits radix cs (acc * radix + d) true
    | none => if seen then some acc else none

/-- Strip a leading `0x` or `0X`. -/
def stripHexPrefix : List Char → Option (List Char)
  | '0' :: 'x' :: rest => some rest
  | '0' :: 'X' :: rest => some rest
  | _ => none

/-- Unsigned part of `parseInt` with no radix argument. -/
def parseMagnitude (cs : List Char) : Option Nat :=
  match stripHexPrefix cs with
  | some rest => readDigits 16 rest 0 false
  | none => readDigits 10 cs 0 false

/-! ### Numbers

A number that the controller handles is an integer; it stands for the Number (a double) nearest
to it, which is the integer itself up to 2^53 in magnitude. -/

/-- The bound 2^53: integers of smaller magnitude are Numbers, and are printed digit for
digit. -/
def twoPow53 : Nat := 9007199254740992

/-- `Number.isSafeInteger(n)`. -/
def isSafeInteger (n : Int) : Bool :=
  n.natAbs < twoPow53

/-- The least `q`, searched upwards from the given one, with `x / 2^q < 2^53`. -/
def findShift : Nat → Nat → Nat → Nat
  | 0, _, q => q
  | fuel + 1, x, q => if x / 2 ^ q < twoPow53 then q else findShift fuel x (q + 1)

/-- The Number value for a natural number: itself below 2^53, otherwise rounded to a 53-bit
significand, ties to even. -/
def roundNumber (x : Nat) : Nat :=
  if x < twoPow53 then x
  else
    let q := findShift 1100 x 1
    let m := x / 2 ^ q
    let r := x % 2 ^ q
    let half := 2 ^ (q - 1)
    if r > half ∨ (r = half ∧ m % 2 = 1) then (m + 1) * 2 ^ q else m * 2 ^ q

/-- Whether the Number value for a natural number is `Infinity` (2^1024 or more after
rounding). -/
def overflows (x : Nat) : Bool :=
  if x < twoPow53 then false
  else
    let q := findShift 1100 x 1
    decide (971 < q) || (q == 971 && roundNumber x / 2 ^ q == twoPow53)

/-- Search for the shortest decimal of the Number `x` with `d` digits: for `k` significant
digits the two multiples of `10^(d-k)` around `x` are tried, the nearer one (the even one on
a tie) is taken, and `k` grows until one of them has the Number value `x`. -/
def shortestFrom (x d : Nat) : Nat → Nat → Nat
  | 0, _ => x
  | fuel + 1, k =>
    let scale := 10 ^ (d - k)
    let lo := x / scale * scale
    let hi := lo + scale
    let okLo := roundNumber lo == x
    let okHi := roundNumber hi == x
    if okLo && okHi then
      (if x - lo < hi - x then lo
       else if hi - x < x - lo then hi
       else if x / scale % 2 == 0 then lo else hi)
    else if okLo then lo
    else if okHi then hi
    else shortestFrom x d fuel (k + 1)

/-- The decimal with the fewest significant digits whose Number value is the Number `x`. -/
def shortestDecimal (x : Nat) : Nat :=
  if x < twoPow53 then x else shortestFrom x (Nat.toDigits 10 x).length 17 1

/-- `Number::toString` for a Number that is a natural number: the shortest decimal, written
out when it has at most 21 digits and in exponent notation otherwise. -/
def natToText (x : Nat) : List Char :=
  let ds := Nat.toDigits 10 (shortestDecimal x)
  if ds.length ≤ 21 then ds
  else
    match dropTrailing (fun c => c == '0') ds with
    | [] => ds
    | [d] => d :: 'e' :: '+' :: Nat.toDigits 10 (ds.length - 1)
    | d :: rest => d :: '.' :: rest ++ 'e' :: '+' :: Nat.toDigits 10 (ds.length - 1)

/-- `parseInt(s)` without a radix: leading white space is skipped, an optional sign is read, a
`0x` prefix selects base 16, and the longest prefix of digits is the value, as a Number;
`none` is `NaN`. (A value beyond the finite Numbers, which `parseInt` gives as `Infinity`, is
not modelled.) -/
def parseInt (s : String) : Option Int :=
  match s.data.dropWhile isJsWhiteSpace with
  | '-' :: rest => (parseMagnitude rest).map (fun (n : Nat) => -(roundNumber n : Int))
  | '+' :: rest => (parseMagnitude rest).map (fun (n : Nat) => Int.ofNat (roundNumber n))
  | rest => (parseMagnitude rest).map (fun (n : Nat) => Int.ofNat (roundNumber n))

/-- String form of an integer number, as produced by a template literal or `String(n)`:
plain decimal digits up to 21 of them, exponent notation such as `1e+21` beyond. -/
def intToString (n : Int) : String :=
  if overflows n.natAbs then (if n < 0 then "-Infinity" else "Infinity")
  else if n < 0 then ⟨'-' :: natToText (roundNumber n.natAbs)⟩
  else ⟨natToText (roundNumber n.natAbs)⟩

/-- String form of a number that may be `NaN`. -/
def numToString : Option Int → String
  | some n => intToString n
  | none => "NaN"

/-! ### Sets (`new Set()`) -/

/-- The element type of `selectedScenes`: a number, `none` being `NaN`. `Set` compares members
with SameValueZero, under which `NaN` equals itself. -/
abbrev SceneKey := Option Int

/-- `Set.prototype.has`. -/
def setHas (s : List SceneKey) (x : SceneKey) : Bool :=
  s.contains x

/-- `Set.prototype.add`: a new member goes to the end, a present one leaves the set as is. -/
def setAdd (s : List SceneKey) (x : SceneKey) : List SceneKey :=
  if setHas s x then s else s ++ [x]

/-- `Set.prototype.delete`. -/
def setDelete (s : List SceneKey) (x : SceneKey) : List SceneKey :=
  s.filter (fun y => y != x)

/-- `Set.prototype.size`. -/
def setSize (s : List SceneKey) : Nat :=
  s.length

/-! ### Values read from JSON responses -/

/-- A JSON scalar as the controller reads it off a response; a missing property reads as
`undefined`. Numbers are integers. -/
inductive JsVal where
  | undefined
  | null
  | num (n : Int)
  | str (s : String)
deriving DecidableEq, Repr

/-- `ToString` of a scalar, as applied by string concatenation and by `textContent`. -/
def JsVal.toStr : JsVal → String
  | .undefined => "undefined"
  | .null => "null"
  | .num n => intToString n
  | .str s => s

/-- `ToBoolean` of a scalar. -/
def JsVal.truthy : JsVal → Bool
  | .undefined => false
  | .null => false
  | .num n => n != 0
  | .str s => strTruthy s

/-! ## Formatting helpers -/

/-- What `formatFilterReason` hands back: a text, or, when the code names a member that the
lookup table inherits from `Object.prototype`, that member. -/
inductive ReasonLabel where
  | text (s : String)
  | inherited (name : String)
deriving DecidableEq, Repr

/-- Property names every object literal inherits from `Object.prototype`; each has a truthy
value. -/
def objectPrototypeKeys : List String :=
  ["constructor", "hasOwnProperty", "isPrototypeOf", "propertyIsEnumerable", "toLocaleString",
   "toString", "valueOf", "__proto__", "__defineGetter__", "__defineSetter__",
   "__lookupGetter__", "__lookupSetter__"]

/-- The table `reasons` of `formatFilterReason`. -/
def reasons : List (String × String) :=
  [("already_downloaded", "Already Downloaded"), ("unwanted_tags", "Unwanted Tags"),
   ("studio_filter", "Studio Filter"), ("date_range", "Date Range"),
   ("duration_filter", "Duration Filter"), ("rating_filter", "Rating Filter"),
   ("custom_rules", "Custom Rules")]

/-- `formatFilterReason(reason)`, that is `reasons[reason] || reason`. -/
def formatFilterReason (reason : String) : ReasonLabel :=
  match reasons.lookup reason with
  | some label => .text label
  | none => if objectPrototypeKeys.contains reason then .inherited reason else .text reason

/-! ## Controller state and view -/

/-- One entry of `stats.filter_reasons`. -/
structure ReasonCount where
  reason : String
  count : Int
deriving DecidableEq, Repr

/-- The body of a successful stats response, kept in `this.stats`. -/
structure StatsData where
  total_filtered : JsVal
  total_exceptions : JsVal
  exception_rate : JsVal
  filter_reasons : Option (List ReasonCount)
deriving DecidableEq, Repr

/-- The object `{}` that the constructor stores in `this.stats`. -/
def StatsData.empty : StatsData :=
  { total_filtered := .undefined, total_exceptions := .undefined, exception_rate := .undefined,
    filter_reasons := none }

/-- Texts of the five statistics elements. -/
structure StatsView where
  totalFiltered : String
  totalExceptions : String
  exceptionRate : String
  topFilterReason : ReasonLabel
  topFilterCount : String
deriving DecidableEq, Repr

/-- A scene of a listing response; of its fields the controller logic reads `id`. -/
structure Scene where
  id : Int
deriving DecidableEq, Repr

/-- A table row written by `renderSceneRow`: the scene id it was rendered from (which the
template writes into `data-scene-id`, into the checkbox value and into the `onchange`
handler), whether its checkbox is checked and whether it carries the class `table-active`. -/
structure Row where
  sceneId : Int
  checked : Bool
  active : Bool
deriving DecidableEq, Repr

/-- The attribute text of a row: the template's `${scene.id}`. -/
def Row.idAttr (r : Row) : String :=
  intToString r.sceneId

/-- The `pagination` object of a listing response. -/
structure Pagination where
  page : Int
  pages : Int
  total : Int
  has_prev : Bool
  has_next : Bool
deriving DecidableEq, Repr

/-- An `li` of the pagination list. `previous` and `next` carry the page their link loads. -/
inductive PageItem where
  | previous (disabled : Bool) (target : Int)
  | page (number : Int) (active : Bool)
  | ellipsis
  | next (disabled : Bool) (target : Int)
deriving DecidableEq, Repr

/-- Content of the table body `#scenes-table`. -/
inductive TableBody where
  | emptyState
  | rows (rs : List Row)
deriving DecidableEq, Repr

/-- The scene rows in the table body. -/
def TableBody.rowList : TableBody → List Row
  | .emptyState => []
  | .rows rs => rs

/-- Apply a change to every scene row. -/
def TableBody.mapRows (f : Row → Row) : TableBody → TableBody
  | .emptyState => .emptyState
  | .rows rs => .rows (rs.map f)

/-- Fields of the manager followed by the parts of the page it reads and writes. -/
structure State where
  currentPage : Int
  perPage : Int
  currentFilters : List (String × String)
  selectedScenes : List SceneKey
  stats : StatsData
  tableBody : TableBody
  tableLoading : Bool
  loadingText : String
  pagination : List PageItem
  sceneCount : String
  selectAllChecked : Bool
  bulkActionsDisplay : String
  selectedCount : String
  statsView : StatsView
deriving DecidableEq, Repr

/-- The part of the page that comes from the HTML template, before any script has run. -/
structure Template where
  tableBody : TableBody
  loadingText : String
  sceneCount : String
  bulkActionsDisplay : String
  selectedCount : String
  statsView : StatsView

/-- The state the constructor sets up on a freshly loaded page. -/
def State.initial (t : Template) : State :=
  { currentPage := 1, perPage := 20, currentFilters := [], selectedScenes := [],
    stats := StatsData.empty, tableBody := t.tableBody, tableLoading := false,
    loadingText := t.loadingText, pagination := [], sceneCount := t.sceneCount,
    selectAllChecked := false, bulkActionsDisplay := t.bulkActionsDisplay,
    selectedCount := t.selectedCount, statsView := t.statsView }

/-- Ids of the scenes in the table as last rendered. -/
def State.renderedIds (s : State) : List Int :=
  s.tableBody.rowList.map Row.sceneId

/-! ## Selection -/

/-- `updateBulkActionsDisplay()`. -/
def updateBulkActionsDisplay (s : State) : State :=
  { s with
    selectedCount := toString (setSize s.selectedScenes)
    bulkActionsDisplay := if setSize s.selectedScenes > 0 then "block" else "none" }

/-- Set the `table-active` class of the first row whose `data-scene-id` is `attr`. -/
def highlightFirst (attr : String) (flag : Bool) : List Row → List Row
  | [] => []
  | r :: rs =>
    if r.idAttr = attr then { r with active := flag } :: rs
    else r :: highlightFirst attr flag rs

/-- `updateSceneRowHighlight(sceneId)`. -/
def updateSceneRowHighlight (s : State) (sceneId : SceneKey) : State :=
  match s.tableBody with
  | .emptyState => s
  | .rows rs =>
    { s with tableBody :=
        .rows (highlightFirst (numToString sceneId) (setHas s.selectedScenes sceneId) rs) }

/-- `updateAllSceneRowHighlights()`. -/
def updateAllSceneRowHighlights (s : State) : State :=
  let sel := s.selectedScenes
  { s with tableBody :=
      s.tableBody.mapRows (fun r => { r with active := setHas sel (parseInt r.idAttr) }) }

/-- `toggleSceneSelection(sceneId)`. -/
def toggleSceneSelection (s : State) (sceneId : SceneKey) : State :=
  let s1 :=
    if setHas s.selectedScenes sceneId then
      { s with selectedScenes := setDelete s.selectedScenes sceneId }
    else
      { s with selectedScenes := setAdd s.selectedScenes sceneId }
  updateSceneRowHighlight (updateBulkActionsDisplay s1) sceneId

/-- The loop of `toggleSelectAll` over the row checkboxes: each parsed value joins the set. -/
def addAllRows (sel : List SceneKey) (rs : List Row) : List SceneKey :=
  rs.foldl (fun acc r => setAdd acc (parseInt r.idAttr)) sel

/-- `toggleSelectAll()`; the select-all checkbox is read as the user left it. -/
def toggleSelectAll (s : State) : State :=
  let s1 :=
    if s.selectAllChecked then
      { s with
        selectedScenes := addAllRows s.selectedScenes s.tableBody.rowList
        tableBody := s.tableBody.mapRows (fun r => { r with checked := true }) }
    else
      { s with
        selectedScenes := []
        tableBody := s.tableBody.mapRows (fun r => { r with checked := false }) }
  updateAllSceneRowHighlights (updateBulkActionsDisplay s1)

/-- `deselectAll()`. -/
def deselectAll (s : State) : State :=
  let s1 :=
    { s with
      selectedScenes := []
      tableBody := s.tableBody.mapRows (fun r => { r with checked := false })
      selectAllChecked := false }
  updateAllSceneRowHighlights (updateBulkActionsDisplay s1)

/-! ## Objects with string keys, and the query string -/

/-- If `k` is an array index (the canonical decimal form of an integer below 2^32 - 1), that
integer. Such keys come first, in ascending order, among the own properties of an object. -/
def arrayIndex (k : String) : Option Nat :=
  match readDigits 10 k.data 0 false with
  | some n => if toString n = k ∧ n < 4294967295 then some n else none
  | none => none

/-- Put a new array-index property at its place among the leading array-index properties. -/
def insertIndexKey (n : Nat) (kv : String × String) : List (String × String) → List (String × String)
  | [] => [kv]
  | p :: rest =>
    match arrayIndex p.1 with
    | some m => if m < n then p :: insertIndexKey n kv rest else kv :: p :: rest
    | none => kv :: p :: rest

/-- Give the object the own property `k` with value `v`, as an object literal and a spread do;
the object is kept as the list of its own properties in property order: a present key keeps its
place and takes the new value; a new array-index key is inserted among the array indices; any
other new key goes to the end. -/
def objSet (o : List (String × String)) (k v : String) : List (String × String) :=
  if o.any (fun p => p.1 == k) then o.map (fun p => if p.1 = k then (k, v) else p)
  else
    match arrayIndex k with
    | some n => insertIndexKey n (k, v) o
    | none => o ++ [(k, v)]

/-- The assignment `o[k] = v` of a string to an object created by `{}`. The name `__proto__` is
an accessor that every such object inherits from `Object.prototype`; its setter ignores a
string, so that assignment creates no property. For every other name the object gets the own
property (a data property inherited from `Object.prototype`, such as `constructor`, is
shadowed). -/
def objAssign (o : List (String × String)) (k v : String) : List (String × String) :=
  if k = "__proto__" then o else objSet o k v

/-- Own property names of an object. -/
def objKeys (o : List (String × String)) : List String :=
  o.map Prod.fst

/-- The property read `o[k]` for an own property. -/
def objGet : List (String × String) → String → Option String
  | [], _ => none
  | p :: rest, k => if p.1 = k then some p.2 else objGet rest k

/-- UTF-8 bytes of a character. -/
def utf8Bytes (c : Char) : List Nat :=
  let n := c.toNat
  if n < 0x80 then [n]
  else if n < 0x800 then [0xC0 + n / 64, 0x80 + n % 64]
  else if n < 0x10000 then [0xE0 + n / 4096, 0x80 + n / 64 % 64, 0x80 + n % 64]
  else [0xF0 + n / 262144, 0x80 + n / 4096 % 64, 0x80 + n / 64 % 64, 0x80 + n % 64]

/-- Upper-case hexadecimal digit. -/
def hexDigit (d : Nat) : Char :=
  if d < 10 then Char.ofNat (48 + d) else Char.ofNat (55 + d)

/-- One byte in `application/x-www-form-urlencoded` form: letters, digits and `*-._` stay, a
space becomes `+`, every other byte is percent-encoded. -/
def urlencodeByte (b : Nat) : List Char :=
  if b = 0x20 then ['+']
  else if (48 ≤ b ∧ b ≤ 57) ∨ (65 ≤ b ∧ b ≤ 90) ∨ (97 ≤ b ∧ b ≤ 122) ∨
      b = 0x2A ∨ b = 0x2D ∨ b = 0x2E ∨ b = 0x5F then [Char.ofNat b]
  else ['%', hexDigit (b / 16), hexDigit (b % 16)]

/-- A name or value of a query string. -/
def urlencode (s : String) : List Char :=
  s.data.flatMap (fun c => (utf8Bytes c).flatMap urlencodeByte)

/-- Serialisation of `URLSearchParams`: `name=value` pairs joined by `&`. -/
def serializeParams : List (String × String) → List Char
  | [] => []
  | [kv] => urlencode kv.1 ++ '=' :: urlencode kv.2
  | kv :: rest => urlencode kv.1 ++ '=' :: urlencode kv.2 ++ '&' :: serializeParams rest

/-- The object literal with `page`, `per_page` and the spread of `this.currentFilters`, its
values already converted to strings as `URLSearchParams` does. -/
def listingParams (page perPage : Int) (filters : List (String × String)) :
    List (String × String) :=
  filters.foldl (fun o kv => objSet o kv.1 kv.2)
    (objSet (objSet [] "page" (intToString page)) "per_page" (intToString perPage))

/-- The query string of the listing request. -/
def listingQuery (page perPage : Int) (filters : List (String × String)) : String :=
  ⟨serializeParams (listingParams page perPage filters)⟩

/-- The address `loadFilteredScenes` fetches. -/
def listingUrl (page perPage : Int) (filters : List (String × String)) : String :=
  "/api/filtered-scenes?" ++ listingQuery page perPage filters

/-! ## Effects and responses -/

/-- The JSON body of a bulk-exception request; `expires_at` is `none` when the key is left out
and `some v` when it carries the form's value (`none` inside being `null`). -/
structure BulkExceptionRequest where
  scene_ids : List SceneKey
  type : Option String
  reason : Option String
  add_to_whisparr : Bool
  expires_at : Option (Option String)
deriving DecidableEq, Repr

/-- What the controller does to the world outside its own state and the page elements it
writes. `alert` is a call of the manager's `showAlert(message, type)`, which hands the message
to the page's global `showAlert`; `consoleError` with no detail logs a caught error. -/
inductive Effect where
  | fetchGet (url : String)
  | fetchPostBulk (url : String) (body : BulkExceptionRequest)
  | alert (message : String) (type : String)
  | consoleError (label : String) (detail : Option JsVal)
  | consoleWarn (label : String) (items : List String)
  | modalHide (id : String)
deriving DecidableEq, Repr

/-- `showSuccess(message)`. -/
def showSuccess (message : String) : Effect :=
  .alert message "success"

/-- `showError(message)`. -/
def showError (message : String) : Effect :=
  .alert message "danger"

/-- Whether an effect is a network request. -/
def Effect.isRequest : Effect → Bool
  | .fetchGet _ => true
  | .fetchPostBulk _ _ => true
  | _ => false

/-- Whether an effect is an alert. -/
def Effect.isAlert : Effect → Bool
  | .alert _ _ => true
  | _ => false

/-- Outcome of the stats request: a body with status `success`, a body with another status, or
a rejected fetch (or an unreadable body). -/
inductive StatsOutcome where
  | success (data : StatsData)
  | failure (message : JsVal)
  | fetchError
deriving DecidableEq, Repr

/-- Outcome of the listing request. -/
inductive ListingOutcome where
  | success (scenes : List Scene) (pagination : Pagination)
  | failure (message : JsVal)
  | fetchError
deriving DecidableEq, Repr

/-- Outcome of the bulk-exception request. -/
inductive BulkOutcome where
  | success (created_count : Int) (errors : List String)
  | failure (message : JsVal)
  | fetchError
deriving DecidableEq, Repr

/-! ## Statistics -/

/-- Text given to a counter element by `value || 0`. -/
def orZero (v : JsVal) : String :=
  if v.truthy then v.toStr else "0"

/-- `updateStatsDisplay()`. The rate text is `this.stats.exception_rate + '%' || '0%'`, in which
the concatenation is evaluated first. -/
def updateStatsDisplay (s : State) : State :=
  let rate := s.stats.exception_rate.toStr ++ "%"
  let top : ReasonLabel × String :=
    match s.stats.filter_reasons with
    | some (topReason :: _) =>
      (formatFilterReason topReason.reason, intToString topReason.count ++ " scenes")
    | _ => (.text "None", "No data")
  { s with statsView :=
      { totalFiltered := orZero s.stats.total_filtered
        totalExceptions := orZero s.stats.total_exceptions
        exceptionRate := if strTruthy rate then rate else "0%"
        topFilterReason := top.1
        topFilterCount := top.2 } }

/-- `loadStats()`. -/
def loadStats (s : State) (out : StatsOutcome) : State × List Effect :=
  let req := Effect.fetchGet "/api/filtered-scenes/stats"
  match out with
  | .success data => (updateStatsDisplay { s with stats := data }, [req])
  | .failure message => (s, [req, .consoleError "Failed to load stats:" (some message)])
  | .fetchError => (s, [req, .consoleError "Error loading stats:" none])

/-! ## Listing -/

/-- `renderSceneRow(scene)`: a fresh row, unchecked, highlighted when the scene is selected. -/
def renderSceneRow (s : State) (scene : Scene) : Row :=
  { sceneId := scene.id, checked := false, active := setHas s.selectedScenes (some scene.id) }

/-- `renderScenesTable(scenes)`. -/
def renderScenesTable (s : State) (scenes : List Scene) : State :=
  if scenes.length = 0 then { s with tableBody := .emptyState }
  else { s with tableBody := .rows (scenes.map (renderSceneRow s)) }

/-- `renderPagination(pagination)`, as the list of the items written into `#pagination`. -/
def renderPagination (p : Pagination) : List PageItem :=
  if p.pages ≤ 1 then []
  else
    let startPage := max 1 (p.page - 2)
    let endPage := min p.pages (p.page + 2)
    [PageItem.previous (!p.has_prev) (p.page - 1)]
    ++ (if startPage > 1 then
          PageItem.page 1 false :: (if startPage > 2 then [PageItem.ellipsis] else [])
        else [])
    ++ (List.range (endPage - startPage + 1).toNat).map
        (fun k => PageItem.page (startPage + k) (startPage + k == p.page))
    ++ (if endPage < p.pages then
          (if endPage < p.pages - 1 then [PageItem.ellipsis] else [])
            ++ [PageItem.page p.pages false]
        else [])
    ++ [PageItem.next (!p.has_next) (p.page + 1)]

/-- `showLoading()`. -/
def showLoading (s : State) : State :=
  { s with tableLoading := true, loadingText := "Loading filtered scenes..." }

/-- `hideLoading()`. -/
def hideLoading (s : State) : State :=
  { s with tableLoading := false }

/-- `loadFilteredScenes(page)`. -/
def loadFilteredScenes (s : State) (page : Int) (out : ListingOutcome) : State × List Effect :=
  let s1 := showLoading { s with currentPage := page }
  let req := Effect.fetchGet (listingUrl page s1.perPage s1.currentFilters)
  match out with
  | .success scenes pagination =>
    let s2 := renderScenesTable s1 scenes
    let s3 := { s2 with
      pagination := renderPagination pagination
      sceneCount := intToString pagination.total }
    (hideLoading s3, [req])
  | .failure message =>
    (hideLoading s1, [req, showError ("Failed to load filtered scenes: " ++ message.toStr)])
  | .fetchError =>
    (hideLoading s1,
      [req, .consoleError "Error loading filtered scenes:" none,
       showError "Failed to load filtered scenes"])

/-! ## Filters -/

/-- The loop of `applyFilters` over `formData.entries()`, starting from `{}`. -/
def collectFilters (form : List (String × String)) : List (String × String) :=
  form.foldl (fun o kv => if strTruthy (jsTrim kv.2) then objAssign o kv.1 kv.2 else o) []

/-- `applyFilters()`; `form` is the entry list of the filter form. -/
def applyFilters (s : State) (form : List (String × String)) (out : ListingOutcome) :
    State × List Effect :=
  loadFilteredScenes { s with currentFilters := collectFilters form } 1 out

/-- `clearFilters()`. -/
def clearFilters (s : State) (out : ListingOutcome) : State × List Effect :=
  loadFilteredScenes { s with currentFilters := [] } 1 out

/-! ## Bulk exceptions -/

/-- `FormData.prototype.get`: the first value under the name, `none` being `null`. -/
def formGet (form : List (String × String)) (name : String) : Option String :=
  (form.find? (fun kv => kv.1 == name)).map Prod.snd

/-- `FormData.prototype.has`. -/
def formHas (form : List (String × String)) (name : String) : Bool :=
  form.any (fun kv => kv.1 == name)

/-- The object `data` that `createBulkExceptions` sends. -/
def bulkRequestBody (s : State) (form : List (String × String)) : BulkExceptionRequest :=
  { scene_ids := s.selectedScenes
    type := formGet form "type"
    reason := formGet form "reason"
    add_to_whisparr := formHas form "add_to_whisparr"
    expires_at := if formGet form "type" = some "temporary" then some (formGet form "expires_at")
                  else none }

/-- `createBulkExceptions()`; `form` is the entry list of the bulk-exception form, `out` the
outcome of the bulk request, `listing` and `stats` the outcomes of the two reloads that follow
a success. The modal instance is assumed to exist. -/
def createBulkExceptions (s : State) (form : List (String × String)) (out : BulkOutcome)
    (listing : ListingOutcome) (stats : StatsOutcome) : State × List Effect :=
  if setSize s.selectedScenes = 0 then (s, [showError "No scenes selected"])
  else
    let req := Effect.fetchPostBulk "/api/filtered-scenes/bulk-exception" (bulkRequestBody s form)
    match out with
    | .success created_count errors =>
      let announce :=
        [req, showSuccess (intToString created_count ++ " exceptions created successfully")]
        ++ (if errors.length > 0 then [Effect.consoleWarn "Bulk exception errors:" errors] else [])
        ++ [Effect.modalHide "bulkExceptionModal"]
      let s1 := deselectAll s
      let r2 := loadFilteredScenes s1 s1.currentPage listing
      let r3 := loadStats r2.1 stats
      (r3.1, announce ++ r2.2 ++ r3.2)
    | .failure message =>
      (s, [req, showError ("Failed to create bulk exceptions: " ++ message.toStr)])
    | .fetchError =>
      (s, [req, .consoleError "Error creating bulk exceptions:" none,
           showError "Failed to create bulk exceptions"])

/-! ## Sequences of operations -/

/-- The operations that change the selection or the rendered page, each with what the user or
the server supplies: the state the user left the select-all box in, the form entries, the
outcome of the listing request. -/
inductive Op where
  | toggleSceneSelection (sceneId : SceneKey)
  | toggleSelectAll (boxChecked : Bool)
  | deselectAll
  | applyFilters (form : List (String × String)) (out : ListingOutcome)
  | clearFilters (out : ListingOutcome)
  | loadFilteredScenes (page : Int) (out : ListingOutcome)
deriving DecidableEq, Repr

/-- One operation. -/
def step (s : State) : Op → State
  | .toggleSceneSelection sceneId => toggleSceneSelection s sceneId
  | .toggleSelectAll boxChecked => toggleSelectAll { s with selectAllChecked := boxChecked }
  | .deselectAll => deselectAll s
  | .applyFilters form out => (applyFilters s form out).1
  | .clearFilters out => (clearFilters s out).1
  | .loadFilteredScenes page out => (loadFilteredScenes s page out).1

/-- A sequence of operations. -/
def run (s : State) (ops : List Op) : State :=
  ops.foldl step s

/-- Whether every `toggleSceneSelection` of the sequence is the `onchange` call of a row that
is in the table at that moment. -/
def fromRows (s : State) : List Op → Bool
  | [] => true
  | op :: ops =>
    (match op with
      | .toggleSceneSelection sceneId => (s.renderedIds.map some).contains sceneId
      | _ => true)
    && fromRows (step s op) ops

/-- Ids of all scenes that were in the table at some moment of the sequence. -/
def renderedDuring (s : State) : List Op → List Int
  | [] => s.renderedIds
  | op :: ops => s.renderedIds ++ renderedDuring (step s op) ops

/-- A template with an empty table body, used for concrete runs. -/
def Template.blank : Template :=
  { tableBody := .rows [], loadingText := "", sceneCount := "", bulkActionsDisplay := "none",
    selectedCount := "0",
    statsView := { totalFiltered := "", totalExceptions := "", exceptionRate := "",
                   topFilterReason := .text "", topFilterCount := "" } }

/-! ## Predicates and sample data used by the theorems -/

/-- After `updateBulkActionsDisplay` the bar and the counter agree with the selection. -/
def BulkBarInSync (s : State) : Prop :=
  (s.bulkActionsDisplay = "block" ↔ s.selectedScenes ≠ []) ∧
  (s.bulkActionsDisplay = "none" ↔ s.selectedScenes = []) ∧
  s.selectedCount = toString (setSize s.selectedScenes)

instance (s : State) : Decidable (BulkBarInSync s) := by
  unfold BulkBarInSync
  infer_instance

/-- The network requests among a list of effects. -/
def requestsOf (es : List Effect) : List Effect :=
  es.filter Effect.isRequest

/-- The alerts among a list of effects. -/
def alertsOf (es : List Effect) : List Effect :=
  es.filter Effect.isAlert

/-- A state with scene 1 rendered and selected, used for concrete runs. -/
def State.sample : State :=
  { State.initial Template.blank with
    selectedScenes := [some 1]
    tableBody := .rows [{ sceneId := 1, checked := true, active := true }]
    bulkActionsDisplay := "block"
    selectedCount := "1" }

/-- A visit of two pages: page 1 is loaded, the row of scene 1 is ticked, page 2 is loaded. -/
def twoPageVisit : List Op :=
  [.loadFilteredScenes 1 (.success [⟨1⟩, ⟨2⟩] ⟨1, 2, 3, false, true⟩),
   .toggleSceneSelection (some 1),
   .loadFilteredScenes 2 (.success [⟨3⟩] ⟨2, 2, 3, true, false⟩)]

/-! ## Single exceptions -/

/-- The JSON body of a single-exception request; `expires_at` as in `BulkExceptionRequest`. -/
structure ExceptionRequest where
  type : Option String
  reason : Option String
  add_to_whisparr : Bool
  expires_at : Option (Option String)
deriving DecidableEq, Repr

/-- The object `data` that `createException` sends: `type`, `reason` and `add_to_whisparr` read
off the form, and `expires_at` added when the type is `temporary`. -/
def exceptionRequestBody (form : List (String × String)) : ExceptionRequest :=
  { type := formGet form "type"
    reason := formGet form "reason"
    add_to_whisparr := formHas form "add_to_whisparr"
    expires_at := if formGet form "type" = some "temporary" then some (formGet form "expires_at")
                  else none }

/-- Keys of `JSON.stringify(data)` for a single-exception body: every own property of `data`,
since none of its values is `undefined` (`FormData.get` gives a string or `null`). -/
def ExceptionRequest.jsonKeys (d : ExceptionRequest) : List String :=
  ["type", "reason", "add_to_whisparr"] ++
    (match d.expires_at with
     | some _ => ["expires_at"]
     | none => [])

/-- Keys of `JSON.stringify(data)` for a bulk-exception body. -/
def BulkExceptionRequest.jsonKeys (d : BulkExceptionRequest) : List String :=
  ["scene_ids", "type", "reason", "add_to_whisparr"] ++
    (match d.expires_at with
     | some _ => ["expires_at"]
     | none => [])

/-! ## Badge colours and the empty table -/

/-- The table `classes` of `getFilterReasonClass`. -/
def classes : List (String × String) :=
  [("already_downloaded", "bg-info"), ("unwanted_tags", "bg-warning"),
   ("studio_filter", "bg-secondary"), ("date_range", "bg-primary"),
   ("duration_filter", "bg-success"), ("rating_filter", "bg-danger"),
   ("custom_rules", "bg-dark")]

/-- `getFilterReasonClass(reason)`, that is `classes[reason] || 'bg-secondary'`. -/
def getFilterReasonClass (reason : String) : ReasonLabel :=
  match classes.lookup reason with
  | some c => .text c
  | none =>
    if objectPrototypeKeys.contains reason then .inherited reason else .text "bg-secondary"

/-- The text of the row that `renderScenesTable` writes for an empty list of scenes; a table
body with scene rows has none. -/
def TableBody.notice : TableBody → Option String
  | .emptyState => some "No filtered scenes found matching your criteria"
  | .rows _ => none

/-! ## Refreshing -/

/-- How the promise returned by an `async` method settles. -/
inductive Settled where
  | fulfilled
  | rejected
deriving DecidableEq, Repr

/-- Settlement of `loadStats()`: the whole body is inside `try`, and the `catch` block only
logs, so each outcome of the request ends in a fulfilled promise. -/
def loadStatsSettled : StatsOutcome → Settled
  | .success _ => .fulfilled
  | .failure _ => .fulfilled
  | .fetchError => .fulfilled

/-- Settlement of `loadFilteredScenes(page)`: the request and the rendering are inside `try`,
the `catch` block logs and raises an alert, the `finally` block hides the loading state. -/
def loadFilteredScenesSettled : ListingOutcome → Settled
  | .success _ _ => .fulfilled
  | .failure _ => .fulfilled
  | .fetchError => .fulfilled

/-- Settlement of `Promise.all` over two promises. -/
def promiseAll : Settled → Settled → Settled
  | .fulfilled, .fulfilled => .fulfilled
  | _, _ => .rejected

/-- The refresh button `#refresh-btn`. -/
structure RefreshButton where
  innerHTML : String
  disabled : Bool
deriving DecidableEq, Repr

/-- `refreshData()`. The two reloads are started together; they write different parts of the
state, and their effects are listed stats first. -/
def refreshData (s : State) (button : RefreshButton) (stats : StatsOutcome)
    (listing : ListingOutcome) : State × RefreshButton × List Effect :=
  let originalContent := button.innerHTML
  let busy : RefreshButton :=
    { innerHTML := "<i class=\"fas fa-spin fa-sync-alt\"></i> Refreshing...", disabled := true }
  let r1 := loadStats s stats
  let r2 := loadFilteredScenes r1.1 s.currentPage listing
  let verdict :=
    match promiseAll (loadStatsSettled stats) (loadFilteredScenesSettled listing) with
    | .fulfilled => showSuccess "Data refreshed successfully"
    | .rejected => showError "Failed to refresh data"
  (r2.1, { busy with innerHTML := originalContent, disabled := false },
   r1.2 ++ r2.2 ++ [verdict])

/-! ## Reading a pagination list -/

/-- Numbers of the numbered page links of a pagination list, in the order of the list. -/
def pageNumbers : List PageItem → List Int
  | [] => []
  | .page n _ :: rest => n :: pageNumbers rest
  | _ :: rest => pageNumbers rest

/-- Numbers of the page links that carry the class `active`. -/
def activePages : List PageItem → List Int
  | [] => []
  | .page n true :: rest => n :: activePages rest
  | _ :: rest => activePages rest

/-- The links written by the loop of `renderPagination` for the pages from `startPage` to
`endPage`. -/
def windowLinks (p : Pagination) : List PageItem :=
  (List.range (min p.pages (p.page + 2) - max 1 (p.page - 2) + 1).toNat).map
    (fun (k : Nat) =>
      PageItem.page (max 1 (p.page - 2) + (k : Int)) (max 1 (p.page - 2) + (k : Int) == p.page))

/-- What `renderPagination` writes before the window: the link to page 1 and an ellipsis. -/
def leadItems (p : Pagination) : List PageItem :=
  if max 1 (p.page - 2) > 1 then
    PageItem.page 1 false :: (if max 1 (p.page - 2) > 2 then [PageItem.ellipsis] else [])
  else []

/-- What `renderPagination` writes after the window: an ellipsis and the link to the last
page. -/
def trailItems (p : Pagination) : List PageItem :=
  if min p.pages (p.page + 2) < p.pages then
    (if min p.pages (p.page + 2) < p.pages - 1 then [PageItem.ellipsis] else [])
      ++ [PageItem.page p.pages false]
  else []

/-! ## The want buttons (`dashboard-whisparr.js`, `whisparr-integration.js`,
`want-button-fix.js`) -/

/-- Replace the first occurrence of `pat` in a list of characters by `rep`. -/
def replaceFirstChars (pat rep : List Char) : List Char → List Char
  | [] => if pat = [] then rep else []
  | c :: cs =>
    if pat.isPrefixOf (c :: cs) then rep ++ (c :: cs).drop pat.length
    else c :: replaceFirstChars pat rep cs

/-- `s.replace(pat, rep)` for a string pattern: the first occurrence is replaced, the string is
unchanged when there is none. (None of the replacements used by the handlers contains `$`.) -/
def jsReplace (s pat rep : String) : String :=
  ⟨replaceFirstChars pat.data rep.data s.data⟩

/-- The want button `event.target`, as far as the handlers read and write it. -/
structure Button where
  innerHTML : String
  disabled : Bool
  className : String
deriving DecidableEq, Repr

/-- The parsed JSON body of a want response: the truthiness of `data.success`, and
`data.error`. -/
structure WantData where
  success : Bool
  error : JsVal
deriving DecidableEq, Repr

/-- What comes back from the want request: a rejected `fetch`, or a response with its status,
status text and body; the body is `none` when `response.json()` rejects or gives `null`. -/
inductive WantResponse where
  | rejected
  | received (status : Nat) (statusText : String) (data : Option WantData)
deriving DecidableEq, Repr

/-- `response.ok`: the status is in the range 200 to 299. -/
def WantResponse.ok : WantResponse → Bool
  | .rejected => false
  | .received status _ _ => 200 ≤ status && status ≤ 299

/-- The error a rejected promise chain carries into `.catch`. -/
inductive WantError where
  | fetchRejected
  | bodyUnreadable
  | thrown (message : String)
deriving DecidableEq, Repr

/-- The successive states of a want button: after the click, after the promise chain has
settled, and after the reset timer has fired; with the error handed to `console.error`. -/
structure WantRun where
  loading : Button
  settled : Button
  final : Button
  logged : Option WantError
deriving DecidableEq, Repr

/-- The label all three handlers show while the request is in flight. -/
def addingLabel : String :=
  "<i class=\"fas fa-spinner fa-spin\"></i> Adding..."

/-- The label all three handlers show on success. -/
def addedLabel : String :=
  "<i class=\"fas fa-check\"></i> Added!"

/-- The failure label of `dashboard-whisparr.js` and `whisparr-integration.js`. -/
def failedLabel : String :=
  "<i class=\"fas fa-times\"></i> Failed"

/-- The failure label of `want-button-fix.js`. -/
def errorLabel : String :=
  "<i class=\"fas fa-exclamation-triangle\"></i> Error"

/-- The second `.then` callback shared by the handlers: `data.success` decides between success
and `throw new Error(data.error || 'Failed to add to Whisparr')`. -/
def readData : Option WantData → Except WantError Unit
  | none => .error .bodyUnreadable
  | some d =>
    if d.success then .ok ()
    else .error (.thrown (if d.error.truthy then d.error.toStr else "Failed to add to Whisparr"))

/-- The promise chain of `addSceneToWant` in `dashboard-whisparr.js` up to `.catch`: the body
is parsed whatever the status. -/
def DashboardWhisparr.outcome : WantResponse → Except WantError Unit
  | .rejected => .error .fetchRejected
  | .received _ _ data => readData data

/-- `addSceneToWant(sceneTitle, sceneId)` of `dashboard-whisparr.js` on the button `b`. -/
def DashboardWhisparr.addSceneToWant (b : Button) (r : WantResponse) : WantRun :=
  let originalText := b.innerHTML
  let loading := { b with innerHTML := addingLabel, disabled := true }
  let settled :=
    match DashboardWhisparr.outcome r with
    | .ok _ =>
      { loading with
        innerHTML := addedLabel
        className := jsReplace loading.className "btn-outline-success" "btn-success" }
    | .error _ =>
      { loading with
        innerHTML := failedLabel
        className := jsReplace loading.className "btn-outline-success" "btn-danger" }
  let final :=
    { settled with
      innerHTML := originalText
      disabled := false
      className := "btn btn-sm btn-outline-success" }
  { loading := loading, settled := settled, final := final,
    logged := match DashboardWhisparr.outcome r with
      | .ok _ => none
      | .error e => some e }

/-- The promise chain of `addToWant` in `whisparr-integration.js` up to `.catch`: a response
that is not `ok` throws before the body is read. -/
def WhisparrIntegration.outcome : WantResponse → Except WantError Unit
  | .rejected => .error .fetchRejected
  | .received status statusText data =>
    if (WantResponse.received status statusText data).ok then readData data
    else .error (.thrown ("HTTP " ++ toString status ++ ": " ++ statusText))

/-- `addToWant(sceneId, sceneTitle)` of `whisparr-integration.js` on the button `b`. -/
def WhisparrIntegration.addToWant (b : Button) (r : WantResponse) : WantRun :=
  let originalHtml := b.innerHTML
  let loading := { b with innerHTML := addingLabel, disabled := true }
  let settled :=
    match WhisparrIntegration.outcome r with
    | .ok _ =>
      { loading with
        innerHTML := addedLabel
        className := jsReplace loading.className "btn-outline-success" "btn-success" }
    | .error _ =>
      { loading with
        innerHTML := failedLabel
        className := jsReplace loading.className "btn-outline-success" "btn-danger" }
  let final :=
    { settled with
      innerHTML := originalHtml
      disabled := false
      className := jsReplace settled.className "btn-success btn-danger" "btn-outline-success" }
  { loading := loading, settled := settled, final := final,
    logged := match WhisparrIntegration.outcome r with
      | .ok _ => none
      | .error e => some e }

/-- The promise chain of `addToWant` in `want-button-fix.js` up to `.catch`: the body is parsed
whatever the status. -/
def WantButtonFix.outcome : WantResponse → Except WantError Unit
  | .rejected => .error .fetchRejected
  | .received _ _ data => readData data

/-- `addToWant(sceneTitle, sceneYear)` of `want-button-fix.js` on the button `b`; each branch
arms its own reset. -/
def WantButtonFix.addToWant (b : Button) (r : WantResponse) : WantRun :=
  let originalText := b.innerHTML
  let loading := { b with innerHTML := addingLabel, disabled := true }
  match WantButtonFix.outcome r with
  | .ok _ =>
    let settled :=
      { loading with
        innerHTML := addedLabel
        className := jsReplace loading.className "btn-outline-success" "btn-success" }
    let final :=
      { settled with
        innerHTML := originalText
        disabled := false
        className := jsReplace settled.className "btn-success" "btn-outline-success" }
    { loading := loading, settled := settled, final := final, logged := none }
  | .error e =>
    let settled :=
      { loading with
        innerHTML := errorLabel
        className := jsReplace loading.className "btn-outline-success" "btn-danger" }
    let final :=
      { settled with
        innerHTML := originalText
        disabled := false
        className := jsReplace settled.className "btn-danger" "btn-outline-success" }
    { loading := loading, settled := settled, final := final, logged := some e }

/-- A want button as the templates write it, used for concrete runs. -/
def Button.sample : Button :=
  { innerHTML := "<i class=\"fas fa-plus\"></i> Want", disabled := false,
    className := "btn btn-outline-success" }

/-- A visit of one page whose only scene has the id 10^21, with select-all ticked. -/
def hugeIdVisit : List Op :=
  [.loadFilteredScenes 1 (.success [⟨1000000000000000000000⟩] ⟨1, 1, 1, false, false⟩),
   .toggleSelectAll true]

/-! ## Selection: auxiliary facts -/

theorem updateBulkActionsDisplay_selected (s : State) :
    (updateBulkActionsDisplay s).selectedScenes = s.selectedScenes := rfl

theorem updateSceneRowHighlight_selected (s : State) (x : SceneKey) :
    (updateSceneRowHighlight s x).selectedScenes = s.selectedScenes := by
  unfold updateSceneRowHighlight
  split <;> rfl

theorem toggleSceneSelection_selected (s : State) (x : SceneKey) :
    (toggleSceneSelection s x).selectedScenes =
      if setHas s.selectedScenes x then setDelete s.selectedScenes x
      else setAdd s.selectedScenes x := by
  unfold toggleSceneSelection
  simp only [updateSceneRowHighlight_selected, updateBulkActionsDisplay_selected]
  split <;> rfl

theorem setHas_iff (l : List SceneKey) (x : SceneKey) : setHas l x = true ↔ x ∈ l := by
  simp [setHas]

theorem mem_setAdd (l : List SceneKey) (x y : SceneKey) : y ∈ setAdd l x ↔ y ∈ l ∨ y = x := by
  unfold setAdd
  split
  · rename_i h
    rw [setHas_iff] at h
    constructor
    · exact fun hy => Or.inl hy
    · rintro (hy | rfl)
      · exact hy
      · exact h
  · simp

theorem mem_setDelete (l : List SceneKey) (x y : SceneKey) :
    y ∈ setDelete l x ↔ y ∈ l ∧ y ≠ x := by
  simp [setDelete]

/-- C1. Calling `toggleSceneSelection(x)` twice in a row leaves `selectedScenes` with the same
members as before, whether or not `x` was selected to begin with. -/
theorem toggleSceneSelection_twice (s : State) (x : SceneKey) (y : SceneKey) :
    y ∈ (toggleSceneSelection (toggleSceneSelection s x) x).selectedScenes ↔
      y ∈ s.selectedScenes := by
  rw [toggleSceneSelection_selected, toggleSceneSelection_selected]
  by_cases hx : x ∈ s.selectedScenes
  · have h1 : setHas s.selectedScenes x = true := (setHas_iff _ _).2 hx
    have h2 : setHas (setDelete s.selectedScenes x) x = false := by
      rw [Bool.eq_false_iff, Ne, setHas_iff, mem_setDelete]
      exact fun h => h.2 rfl
    simp only [h1, h2, if_true, Bool.false_eq_true, if_false, mem_setAdd, mem_setDelete]
    constructor
    · rintro (⟨hy, _⟩ | rfl)
      · exact hy
      · exact hx
    · intro hy
      by_cases hyx : y = x
      · exact Or.inr hyx
      · exact Or.inl ⟨hy, hyx⟩
  · have h1 : setHas s.selectedScenes x = false := by
      rw [Bool.eq_false_iff, Ne, setHas_iff]; exact hx
    have h2 : setHas (setAdd s.selectedScenes x) x = true := by
      rw [setHas_iff, mem_setAdd]; exact Or.inr rfl
    simp only [h1, h2, if_true, Bool.false_eq_true, if_false, mem_setAdd, mem_setDelete]
    constructor
    · rintro ⟨hy | hy, hne⟩
      · exact hy
      · exact absurd hy hne
    · intro hy
      refine ⟨Or.inl hy, ?_⟩
      rintro rfl
      exact hx hy

theorem updateAllSceneRowHighlights_selected (s : State) :
    (updateAllSceneRowHighlights s).selectedScenes = s.selectedScenes := rfl

theorem updateSceneRowHighlight_bulk (s : State) (x : SceneKey) :
    (updateSceneRowHighlight s x).bulkActionsDisplay = s.bulkActionsDisplay ∧
    (updateSceneRowHighlight s x).selectedCount = s.selectedCount := by
  unfold updateSceneRowHighlight
  split <;> exact ⟨rfl, rfl⟩

theorem updateBulkActionsDisplay_inSync (s : State) :
    BulkBarInSync (updateBulkActionsDisplay s) := by
  unfold BulkBarInSync updateBulkActionsDisplay setSize
  cases h : s.selectedScenes with
  | nil => simp
  | cons a l => simp

theorem bulkBarInSync_highlights (s : State) :
    BulkBarInSync (updateAllSceneRowHighlights s) ↔ BulkBarInSync s :=
  Iff.rfl

/-- C9. After each of `toggleSceneSelection`, `toggleSelectAll` and `deselectAll` the bulk-action
bar is displayed (`block`) if and only if `selectedScenes` is non-empty (and is `none` exactly
when it is empty), and the selected-count text is the size of `selectedScenes`. -/
theorem bulkBar_after_selection_ops (s : State) (x : SceneKey) :
    BulkBarInSync (toggleSceneSelection s x) ∧ BulkBarInSync (toggleSelectAll s) ∧
    BulkBarInSync (deselectAll s) := by
  refine ⟨?_, ?_, ?_⟩
  · unfold toggleSceneSelection
    generalize (if setHas s.selectedScenes x = true then
        { s with selectedScenes := setDelete s.selectedScenes x }
      else { s with selectedScenes := setAdd s.selectedScenes x }) = s1
    have h := updateBulkActionsDisplay_inSync s1
    have hb := updateSceneRowHighlight_bulk (updateBulkActionsDisplay s1) x
    unfold BulkBarInSync at h ⊢
    rw [hb.1, hb.2, updateSceneRowHighlight_selected]
    exact h
  · unfold toggleSelectAll
    exact (bulkBarInSync_highlights _).2 (updateBulkActionsDisplay_inSync _)
  · unfold deselectAll
    exact (bulkBarInSync_highlights _).2 (updateBulkActionsDisplay_inSync _)

theorem rowList_mapRows (f : Row → Row) (t : TableBody) :
    (t.mapRows f).rowList = t.rowList.map f := by
  cases t <;> rfl

/-- C10. For every prior selection and every set of row checkboxes, `toggleSelectAll` (with the
select-all box checked or unchecked) followed by `deselectAll` leaves `selectedScenes` empty,
every row checkbox unchecked and the select-all checkbox unchecked; the rows are the same rows
as before. -/
theorem toggleSelectAll_then_deselectAll (s : State) :
    (deselectAll (toggleSelectAll s)).selectedScenes = [] ∧
    (∀ r ∈ (deselectAll (toggleSelectAll s)).tableBody.rowList, r.checked = false) ∧
    (deselectAll (toggleSelectAll s)).selectAllChecked = false ∧
    (deselectAll (toggleSelectAll s)).renderedIds = s.renderedIds := by
  refine ⟨rfl, ?_, rfl, ?_⟩
  · intro r hr
    simp only [deselectAll, updateAllSceneRowHighlights, updateBulkActionsDisplay,
      rowList_mapRows, List.mem_map] at hr
    obtain ⟨r1, hr1, rfl⟩ := hr
    obtain ⟨r2, _, rfl⟩ := hr1
    rfl
  · simp only [State.renderedIds, deselectAll, toggleSelectAll, updateAllSceneRowHighlights,
      updateBulkActionsDisplay, rowList_mapRows, List.map_map]
    split <;> simp [rowList_mapRows, Function.comp_def]

/-! ## Bulk exceptions -/

/-- C2. With an empty selection `createBulkExceptions` sends no request, raises exactly one
alert, an error one, and leaves `currentPage`, `currentFilters`, `selectedScenes` and `stats`
(indeed the whole state) unchanged. -/
theorem createBulkExceptions_empty (s : State) (form : List (String × String))
    (out : BulkOutcome) (listing : ListingOutcome) (stats : StatsOutcome)
    (h : s.selectedScenes = []) :
    requestsOf (createBulkExceptions s form out listing stats).2 = [] ∧
    alertsOf (createBulkExceptions s form out listing stats).2 =
      [Effect.alert "No scenes selected" "danger"] ∧
    (createBulkExceptions s form out listing stats).1.currentPage = s.currentPage ∧
    (createBulkExceptions s form out listing stats).1.currentFilters = s.currentFilters ∧
    (createBulkExceptions s form out listing stats).1.selectedScenes = s.selectedScenes ∧
    (createBulkExceptions s form out listing stats).1.stats = s.stats ∧
    (createBulkExceptions s form out listing stats).1 = s := by
  have hr : createBulkExceptions s form out listing stats =
      (s, [showError "No scenes selected"]) := by
    simp [createBulkExceptions, setSize, h]
  rw [hr]
  exact ⟨rfl, rfl, rfl, rfl, rfl, rfl, rfl⟩

theorem createBulkExceptions_empty_witness :
    (State.initial Template.blank).selectedScenes = [] ∧
    requestsOf (createBulkExceptions (State.initial Template.blank) [("type", "permanent")]
      (.success 1 []) .fetchError .fetchError).2 = [] ∧
    alertsOf (createBulkExceptions (State.initial Template.blank) [("type", "permanent")]
      (.success 1 []) .fetchError .fetchError).2 = [Effect.alert "No scenes selected" "danger"] :=
  ⟨rfl,
   (createBulkExceptions_empty (State.initial Template.blank) [("type", "permanent")]
      (.success 1 []) .fetchError .fetchError rfl).1,
   (createBulkExceptions_empty (State.initial Template.blank) [("type", "permanent")]
      (.success 1 []) .fetchError .fetchError rfl).2.1⟩

theorem loadStats_selected (s : State) (out : StatsOutcome) :
    (loadStats s out).1.selectedScenes = s.selectedScenes := by
  cases out <;> rfl

theorem renderScenesTable_selected (s : State) (scenes : List Scene) :
    (renderScenesTable s scenes).selectedScenes = s.selectedScenes := by
  unfold renderScenesTable
  split <;> rfl

theorem loadFilteredScenes_selected (s : State) (page : Int) (out : ListingOutcome) :
    (loadFilteredScenes s page out).1.selectedScenes = s.selectedScenes := by
  cases out with
  | success scenes pagination =>
    show (renderScenesTable _ scenes).selectedScenes = _
    rw [renderScenesTable_selected]
    rfl
  | failure message => rfl
  | fetchError => rfl

theorem loadStats_alerts (s : State) (out : StatsOutcome) :
    alertsOf (loadStats s out).2 = [] := by
  cases out <;> rfl

theorem createBulkExceptions_success (s : State) (form : List (String × String))
    (n : Int) (es : List String) (listing : ListingOutcome) (stats : StatsOutcome)
    (h : s.selectedScenes ≠ []) :
    createBulkExceptions s form (.success n es) listing stats =
      ((loadStats (loadFilteredScenes (deselectAll s) s.currentPage listing).1 stats).1,
       [Effect.fetchPostBulk "/api/filtered-scenes/bulk-exception" (bulkRequestBody s form),
        showSuccess (intToString n ++ " exceptions created successfully")]
        ++ (if es.length > 0 then [Effect.consoleWarn "Bulk exception errors:" es] else [])
        ++ [Effect.modalHide "bulkExceptionModal"]
        ++ (loadFilteredScenes (deselectAll s) s.currentPage listing).2
        ++ (loadStats (loadFilteredScenes (deselectAll s) s.currentPage listing).1 stats).2) := by
  have h0 : ¬ setSize s.selectedScenes = 0 := by
    unfold setSize
    exact fun hl => h (List.length_eq_zero.1 hl)
  unfold createBulkExceptions
  rw [if_neg h0]
  rfl

theorem createBulkExceptions_failed (s : State) (form : List (String × String))
    (out : BulkOutcome) (listing : ListingOutcome) (stats : StatsOutcome)
    (h : s.selectedScenes ≠ []) (hout : ∀ n es, out ≠ .success n es) :
    (createBulkExceptions s form out listing stats).1 = s := by
  have h0 : ¬ setSize s.selectedScenes = 0 := by
    unfold setSize
    exact fun hl => h (List.length_eq_zero.1 hl)
  unfold createBulkExceptions
  rw [if_neg h0]
  cases out with
  | success n es => exact absurd rfl (hout n es)
  | failure message => rfl
  | fetchError => rfl

theorem createBulkExceptions_success_selected (s : State) (form : List (String × String))
    (n : Int) (es : List String) (listing : ListingOutcome) (stats : StatsOutcome)
    (h : s.selectedScenes ≠ []) :
    (createBulkExceptions s form (.success n es) listing stats).1.selectedScenes = [] := by
  rw [createBulkExceptions_success s form n es listing stats h]
  show (loadStats _ stats).1.selectedScenes = []
  rw [loadStats_selected, loadFilteredScenes_selected]
  rfl

/-- C7, as stated, fails: after a response whose status is not `success`, and after a failed
fetch, the selection is still there. -/
theorem createBulkExceptions_keeps_selection_on_failure :
    State.sample.selectedScenes ≠ [] ∧
    (createBulkExceptions State.sample [("type", "permanent"), ("reason", "ok")]
      (.failure (.str "database is locked")) .fetchError .fetchError).1.selectedScenes
        = [some 1] ∧
    (createBulkExceptions State.sample [("type", "permanent"), ("reason", "ok")]
      .fetchError .fetchError .fetchError).1.selectedScenes = [some 1] := by
  decide

/-- C7, amended. After `createBulkExceptions` on a non-empty selection, `selectedScenes` is
empty when the response is a success; after a response whose status is not `success` and after
a failed fetch it is what it was before the call. -/
theorem createBulkExceptions_selection_after (s : State) (form : List (String × String))
    (listing : ListingOutcome) (stats : StatsOutcome) (h : s.selectedScenes ≠ []) :
    (∀ n es, (createBulkExceptions s form (.success n es) listing stats).1.selectedScenes = []) ∧
    (∀ message, (createBulkExceptions s form (.failure message) listing stats).1.selectedScenes
        = s.selectedScenes) ∧
    (createBulkExceptions s form .fetchError listing stats).1.selectedScenes
        = s.selectedScenes := by
  refine ⟨?_, ?_, ?_⟩
  · intro n es
    exact createBulkExceptions_success_selected s form n es listing stats h
  · intro message
    rw [createBulkExceptions_failed s form _ listing stats h (fun _ _ hc => by cases hc)]
  · rw [createBulkExceptions_failed s form _ listing stats h (fun _ _ hc => by cases hc)]

theorem createBulkExceptions_selection_after_witness :
    State.sample.selectedScenes ≠ [] ∧
    (createBulkExceptions State.sample [] (.success 1 []) .fetchError .fetchError).1.selectedScenes
      = [] :=
  ⟨by decide,
   (createBulkExceptions_selection_after State.sample [] .fetchError .fetchError
      (by decide)).1 1 []⟩

/-- C8. For every success response with `created_count` n and `errors` es to a bulk request,
`createBulkExceptions` raises the success alert `<n> exceptions created successfully`; the
alerts it raises are that one followed by those of the listing reload, so none is built from
es (the list of alerts is the same for any other es); afterwards `selectedScenes` is empty. -/
theorem createBulkExceptions_success_alert (s : State) (form : List (String × String))
    (n : Int) (es : List String) (listing : ListingOutcome) (stats : StatsOutcome)
    (h : s.selectedScenes ≠ []) :
    alertsOf (createBulkExceptions s form (.success n es) listing stats).2 =
      Effect.alert (intToString n ++ " exceptions created successfully") "success" ::
        alertsOf (loadFilteredScenes (deselectAll s) s.currentPage listing).2 ∧
    (∀ es', alertsOf (createBulkExceptions s form (.success n es') listing stats).2 =
      alertsOf (createBulkExceptions s form (.success n es) listing stats).2) ∧
    (createBulkExceptions s form (.success n es) listing stats).1.selectedScenes = [] := by
  have key : ∀ es0 : List String,
      alertsOf (createBulkExceptions s form (.success n es0) listing stats).2 =
        Effect.alert (intToString n ++ " exceptions created successfully") "success" ::
          alertsOf (loadFilteredScenes (deselectAll s) s.currentPage listing).2 := by
    intro es0
    rw [createBulkExceptions_success s form n es0 listing stats h]
    simp only [alertsOf, List.filter_append]
    have hs := loadStats_alerts (loadFilteredScenes (deselectAll s) s.currentPage listing).1 stats
    simp only [alertsOf] at hs
    rw [hs]
    by_cases he : es0.length > 0
    · simp [he, List.filter, Effect.isAlert, showSuccess]
    · simp [he, List.filter, Effect.isAlert, showSuccess]
  refine ⟨key es, fun es' => (key es').trans (key es).symm, ?_⟩
  exact createBulkExceptions_success_selected s form n es listing stats h

theorem createBulkExceptions_success_alert_witness :
    State.sample.selectedScenes ≠ [] ∧
    alertsOf (createBulkExceptions State.sample [("type", "permanent")]
      (.success 3 ["id 9 not found"]) (.success [] ⟨1, 1, 0, false, false⟩)
      (.failure .undefined)).2 =
      [Effect.alert "3 exceptions created successfully" "success"] :=
  ⟨by decide,
   (createBulkExceptions_success_alert State.sample [("type", "permanent")] 3
      ["id 9 not found"] (.success [] ⟨1, 1, 0, false, false⟩) (.failure .undefined)
      (by decide)).1⟩

/-! ## Trimming -/

theorem dropWhile_eq_nil_iff_all (p : Char → Bool) (l : List Char) :
    l.dropWhile p = [] ↔ ∀ c ∈ l, p c = true := by
  induction l with
  | nil => simp
  | cons a l ih =>
    by_cases ha : p a = true
    · simp [List.dropWhile_cons, ha, ih]
    · simp [List.dropWhile_cons, ha]

theorem all_of_all_dropWhile (p : Char → Bool) (l : List Char)
    (h : ∀ c ∈ l.dropWhile p, p c = true) : ∀ c ∈ l, p c = true := by
  induction l with
  | nil => simp
  | cons a l ih =>
    by_cases ha : p a = true
    · simp only [List.dropWhile_cons, ha, if_true] at h
      intro c hc
      rcases List.mem_cons.1 hc with rfl | hc
      · exact ha
      · exact ih h c hc
    · simp only [List.dropWhile_cons, ha] at h
      exact absurd (h a (by simp)) ha

theorem dropTrailing_dropWhile_eq_nil_iff (p : Char → Bool) (l : List Char) :
    dropTrailing p (l.dropWhile p) = [] ↔ ∀ c ∈ l, p c = true := by
  unfold dropTrailing
  rw [List.reverse_eq_nil_iff, dropWhile_eq_nil_iff_all]
  constructor
  · intro h
    exact all_of_all_dropWhile p l (fun c hc => h c (List.mem_reverse.2 hc))
  · intro h c hc
    have hl : l.dropWhile p = [] := (dropWhile_eq_nil_iff_all p l).2 h
    rw [hl] at hc
    simp at hc

/-- A value survives the test `value.trim()` exactly when it has a character that is not white
space. -/
theorem strTruthy_jsTrim_iff (v : String) :
    strTruthy (jsTrim v) = true ↔ ∃ c ∈ v.data, isJsWhiteSpace c = false := by
  unfold strTruthy jsTrim
  simp only [Bool.not_eq_true', List.isEmpty_eq_false]
  rw [Ne, dropTrailing_dropWhile_eq_nil_iff]
  push_neg
  simp

/-! ## Objects -/

theorem mem_insertIndexKey (n : Nat) (kv x : String × String) (o : List (String × String)) :
    x ∈ insertIndexKey n kv o ↔ x = kv ∨ x ∈ o := by
  induction o with
  | nil => simp [insertIndexKey]
  | cons p rest ih =>
    unfold insertIndexKey
    split
    · split
      · simp only [List.mem_cons, ih]
        tauto
      · simp
    · simp

theorem objGet_insertIndexKey (n : Nat) (kv : String × String) (k : String)
    (o : List (String × String)) (hk : ∀ p ∈ o, p.1 ≠ kv.1) :
    objGet (insertIndexKey n kv o) k = if kv.1 = k then some kv.2 else objGet o k := by
  induction o with
  | nil => simp [insertIndexKey, objGet]
  | cons p rest ih =>
    have hpa : p.1 ≠ kv.1 := hk p (by simp)
    have ih' := ih (fun q hq => hk q (List.mem_cons_of_mem _ hq))
    unfold insertIndexKey
    split
    · split
      · simp only [objGet, ih']
        by_cases h : p.1 = k
        · have : ¬ kv.1 = k := fun hh => hpa (h.trans hh.symm)
          simp [h, this]
        · simp [h]
      · simp only [objGet]
    · simp only [objGet]

theorem mem_objKeys_objSet (o : List (String × String)) (k v x : String) :
    x ∈ objKeys (objSet o k v) ↔ x = k ∨ x ∈ objKeys o := by
  unfold objSet objKeys
  split
  · rename_i hany
    simp only [List.any_eq_true, beq_iff_eq] at hany
    obtain ⟨p, hp, hpk⟩ := hany
    simp only [List.mem_map, List.map_map]
    constructor
    · rintro ⟨q, hq, rfl⟩
      by_cases hqk : q.1 = k
      · left; simp [hqk]
      · right; exact ⟨q, hq, by simp [hqk]⟩
    · rintro (rfl | ⟨q, hq, rfl⟩)
      · exact ⟨p, hp, by simp [hpk]⟩
      · by_cases hqk : q.1 = k
        · exact ⟨q, hq, by simp [hqk]⟩
        · exact ⟨q, hq, by simp [hqk]⟩
  · split
    · simp only [List.mem_map, mem_insertIndexKey]
      constructor
      · rintro ⟨q, hq | hq, rfl⟩
        · left; rw [hq]
        · right; exact ⟨q, hq, rfl⟩
      · rintro (rfl | ⟨q, hq, rfl⟩)
        · exact ⟨(x, v), Or.inl rfl, rfl⟩
        · exact ⟨q, Or.inr hq, rfl⟩
    · simp only [List.map_append, List.mem_append, List.mem_map, List.map_cons, List.map_nil,
        List.mem_singleton]
      constructor
      · rintro (h | h)
        · exact Or.inr h
        · exact Or.inl h
      · rintro (h | h)
        · exact Or.inr h
        · exact Or.inl h

theorem objGet_map_set (o : List (String × String)) (k v x : String) :
    objGet (o.map (fun p => if p.1 = k then (k, v) else p)) x =
      if x = k then (if o.any (fun p => p.1 == k) then some v else none)
      else objGet o x := by
  induction o with
  | nil => simp [objGet]
  | cons p rest ih =>
    simp only [List.map_cons, List.any_cons, objGet, ih]
    by_cases hp : p.1 = k
    · by_cases hx : x = k
      · simp [hp, hx]
      · have hpx : ¬ p.1 = x := fun h => hx (h.symm.trans hp)
        have hkx : ¬ k = x := fun h => hx h.symm
        simp [hp, hx, hpx, hkx]
    · by_cases hx : x = k
      · subst hx
        have hb : (p.1 == x) = false := beq_eq_false_iff_ne.2 hp
        simp only [hp, if_false, if_true]
        have hor : (p.1 == x || rest.any fun p => p.1 == x) = (rest.any fun p => p.1 == x) := by
          rw [hb, Bool.false_or]
        simp only [hor]
      · simp [hp, hx]

theorem objGet_append_singleton (o : List (String × String)) (k v x : String) :
    objGet (o ++ [(k, v)]) x =
      match objGet o x with
      | some w => some w
      | none => if k = x then some v else none := by
  induction o with
  | nil => simp [objGet]
  | cons p rest ih =>
    simp only [List.cons_append, objGet]
    by_cases hp : p.1 = x
    · simp [hp]
    · simp only [hp, if_false]
      exact ih

theorem objGet_eq_none_of_not_any (o : List (String × String)) (k : String)
    (h : ¬ (o.any (fun p => p.1 == k) = true)) : objGet o k = none := by
  induction o with
  | nil => rfl
  | cons p rest ih =>
    simp only [List.any_cons, Bool.or_eq_true, beq_iff_eq, not_or] at h
    simp only [objGet, h.1, if_false]
    exact ih h.2

/-- Reading a property after an assignment. -/
theorem objGet_objSet (o : List (String × String)) (k v x : String) :
    objGet (objSet o k v) x = if x = k then some v else objGet o x := by
  unfold objSet
  split
  · rename_i hany
    rw [objGet_map_set, hany]
    simp
  · rename_i hany
    split
    · rw [objGet_insertIndexKey]
      · by_cases hx : x = k
        · simp [hx]
        · have : ¬ k = x := fun h => hx h.symm
          simp [hx, this]
      · intro p hp hpk
        apply hany
        simp only [List.any_eq_true, beq_iff_eq]
        exact ⟨p, hp, hpk⟩
    · rw [objGet_append_singleton]
      by_cases hx : x = k
      · subst hx
        rw [objGet_eq_none_of_not_any o x hany]
      · have : ¬ k = x := fun h => hx h.symm
        simp only [hx, this, if_false]
        cases objGet o x <;> rfl

/-! ## Filters -/

theorem loadFilteredScenes_filters (s : State) (page : Int) (out : ListingOutcome) :
    (loadFilteredScenes s page out).1.currentFilters = s.currentFilters ∧
    (loadFilteredScenes s page out).1.currentPage = page ∧
    (loadFilteredScenes s page out).1.perPage = s.perPage ∧
    requestsOf (loadFilteredScenes s page out).2 =
      [Effect.fetchGet (listingUrl page s.perPage s.currentFilters)] := by
  cases out with
  | success scenes pagination =>
    refine ⟨?_, ?_, ?_, rfl⟩ <;>
    · simp only [loadFilteredScenes, hideLoading, renderScenesTable, showLoading]
      split <;> rfl
  | failure message => exact ⟨rfl, rfl, rfl, rfl⟩
  | fetchError => exact ⟨rfl, rfl, rfl, rfl⟩

theorem mem_objKeys_objAssign (o : List (String × String)) (k v x : String) :
    x ∈ objKeys (objAssign o k v) ↔ (k ≠ "__proto__" ∧ x = k) ∨ x ∈ objKeys o := by
  unfold objAssign
  by_cases hk : k = "__proto__"
  · rw [if_pos hk]
    constructor
    · exact fun h => Or.inr h
    · rintro (⟨hne, _⟩ | h)
      · exact absurd hk hne
      · exact h
  · rw [if_neg hk, mem_objKeys_objSet]
    constructor
    · rintro (h | h)
      · exact Or.inl ⟨hk, h⟩
      · exact Or.inr h
    · rintro (⟨_, h⟩ | h)
      · exact Or.inl h
      · exact Or.inr h

theorem objGet_objAssign (o : List (String × String)) (k v x : String) (hk : k ≠ "__proto__") :
    objGet (objAssign o k v) x = if x = k then some v else objGet o x := by
  unfold objAssign
  rw [if_neg hk, objGet_objSet]

theorem objGet_objAssign_of_ne (o : List (String × String)) (k v x : String) (hx : x ≠ k) :
    objGet (objAssign o k v) x = objGet o x := by
  unfold objAssign
  by_cases hk : k = "__proto__"
  · rw [if_pos hk]
  · rw [if_neg hk, objGet_objSet, if_neg hx]

theorem mem_objKeys_foldl (form acc : List (String × String)) (x : String) :
    x ∈ objKeys (form.foldl
        (fun o kv => if strTruthy (jsTrim kv.2) then objAssign o kv.1 kv.2 else o) acc) ↔
      x ∈ objKeys acc ∨
        (x ≠ "__proto__" ∧ ∃ v, (x, v) ∈ form ∧ strTruthy (jsTrim v) = true) := by
  induction form generalizing acc with
  | nil => simp
  | cons p rest ih =>
    obtain ⟨a, b⟩ := p
    rw [List.foldl_cons, ih]
    by_cases hb : strTruthy (jsTrim b) = true
    · simp only [hb, if_true, mem_objKeys_objAssign, List.mem_cons, Prod.mk.injEq]
      constructor
      · rintro ((⟨hne, rfl⟩ | h) | ⟨hx, v, hv, hvt⟩)
        · exact Or.inr ⟨hne, b, Or.inl ⟨rfl, rfl⟩, hb⟩
        · exact Or.inl h
        · exact Or.inr ⟨hx, v, Or.inr hv, hvt⟩
      · rintro (h | ⟨hx, v, (⟨rfl, rfl⟩ | hv), hvt⟩)
        · exact Or.inl (Or.inr h)
        · exact Or.inl (Or.inl ⟨hx, rfl⟩)
        · exact Or.inr ⟨hx, v, hv, hvt⟩
    · simp only [hb, List.mem_cons, Prod.mk.injEq]
      constructor
      · rintro (h | ⟨hx, v, hv, hvt⟩)
        · exact Or.inl h
        · exact Or.inr ⟨hx, v, Or.inr hv, hvt⟩
      · rintro (h | ⟨hx, v, (⟨rfl, rfl⟩ | hv), hvt⟩)
        · exact Or.inl h
        · exact absurd hvt hb
        · exact Or.inr ⟨hx, v, hv, hvt⟩

/-- Fields after which the property `k` is not written again leave it as it is. -/
theorem objGet_foldl_keep (form acc : List (String × String)) (k : String)
    (h : ∀ kv ∈ form, kv.1 = k → strTruthy (jsTrim kv.2) = false) :
    objGet (form.foldl
        (fun o kv => if strTruthy (jsTrim kv.2) then objAssign o kv.1 kv.2 else o) acc) k
      = objGet acc k := by
  induction form generalizing acc with
  | nil => rfl
  | cons p rest ih =>
    rw [List.foldl_cons, ih _ (fun kv hkv => h kv (List.mem_cons_of_mem _ hkv))]
    by_cases hb : strTruthy (jsTrim p.2) = true
    · have hne : k ≠ p.1 := by
        intro hk
        have := h p (by simp) hk.symm
        rw [hb] at this
        exact Bool.noConfusion this
      simp only [hb, if_true]
      exact objGet_objAssign_of_ne acc p.1 p.2 k hne
    · rw [if_neg hb]

theorem foldl_blank (form acc : List (String × String))
    (h : ∀ kv ∈ form, strTruthy (jsTrim kv.2) = false) :
    form.foldl (fun o kv => if strTruthy (jsTrim kv.2) then objAssign o kv.1 kv.2 else o) acc
      = acc := by
  induction form generalizing acc with
  | nil => rfl
  | cons p rest ih =>
    rw [List.foldl_cons, h p (by simp)]
    exact ih acc (fun kv hkv => h kv (List.mem_cons_of_mem _ hkv))

theorem nonblank_iff (v : String) :
    (v ≠ "" ∧ ¬ ∀ c ∈ v.data, isJsWhiteSpace c = true) ↔ strTruthy (jsTrim v) = true := by
  rw [strTruthy_jsTrim_iff]
  constructor
  · rintro ⟨_, h⟩
    push_neg at h
    obtain ⟨c, hc, hw⟩ := h
    exact ⟨c, hc, by simpa using hw⟩
  · rintro ⟨c, hc, hw⟩
    refine ⟨?_, ?_⟩
    · rintro rfl
      simp at hc
    · intro hall
      rw [hall c hc] at hw
      exact Bool.noConfusion hw

/-- What `applyFilters` does for every form: the keys of `currentFilters` are the names, other
than `__proto__`, of the fields whose value is not empty and not white space only;
`currentPage` is 1 and the one request sent is the listing request built for page 1; a form
whose fields are all empty (or white space only) yields the empty object. -/
theorem applyFilters_own_keys (s : State) (form : List (String × String))
    (out : ListingOutcome) :
    (∀ k, k ∈ objKeys (applyFilters s form out).1.currentFilters ↔
      (k ≠ "__proto__" ∧
        ∃ v, (k, v) ∈ form ∧ v ≠ "" ∧ ¬ ∀ c ∈ v.data, isJsWhiteSpace c = true)) ∧
    (applyFilters s form out).1.currentPage = 1 ∧
    requestsOf (applyFilters s form out).2 =
      [Effect.fetchGet (listingUrl 1 s.perPage (applyFilters s form out).1.currentFilters)] ∧
    ((∀ kv ∈ form, kv.2 = "" ∨ ∀ c ∈ kv.2.data, isJsWhiteSpace c = true) →
      (applyFilters s form out).1.currentFilters = []) := by
  have hl := loadFilteredScenes_filters { s with currentFilters := collectFilters form } 1 out
  have hcf : (applyFilters s form out).1.currentFilters = collectFilters form := hl.1
  refine ⟨?_, hl.2.1, ?_, ?_⟩
  · intro k
    rw [hcf]
    unfold collectFilters
    rw [mem_objKeys_foldl]
    simp only [objKeys, List.map_nil, List.not_mem_nil, false_or]
    constructor
    · rintro ⟨hk, v, hv, hvt⟩
      exact ⟨hk, v, hv, (nonblank_iff v).2 hvt⟩
    · rintro ⟨hk, v, hv, hvt⟩
      exact ⟨hk, v, hv, (nonblank_iff v).1 hvt⟩
  · rw [hcf]
    exact hl.2.2.2
  · intro hblank
    rw [hcf]
    unfold collectFilters
    apply foldl_blank
    intro kv hkv
    rw [Bool.eq_false_iff]
    intro ht
    have hn := (nonblank_iff kv.2).2 ht
    rcases hblank kv hkv with h | h
    · exact hn.1 h
    · exact hn.2 h

/-- C3 at a form with a field named `__proto__`: its value `x` is neither empty nor white
space, yet `currentFilters` gets no key for it, because the assignment
`currentFilters['__proto__'] = 'x'` runs the setter inherited from `Object.prototype` instead
of creating a property; next to a field `search` only `search` becomes a key, and the request
carries no parameter for the field. -/
theorem applyFilters_drops_proto_field :
    ("x" ≠ "" ∧ ¬ ∀ c ∈ "x".data, isJsWhiteSpace c = true) ∧
    objKeys (applyFilters (State.initial Template.blank) [("__proto__", "x")]
      .fetchError).1.currentFilters = [] ∧
    objKeys (applyFilters (State.initial Template.blank)
      [("search", "foo"), ("__proto__", "x")] .fetchError).1.currentFilters = ["search"] ∧
    requestsOf (applyFilters (State.initial Template.blank)
      [("search", "foo"), ("__proto__", "x")] .fetchError).2 =
      [Effect.fetchGet "/api/filtered-scenes?page=1&per_page=20&search=foo"] := by
  decide

/-- C4, as stated, fails: a field `search` with value `' foo '` is stored as `' foo '`, not as
its trimmed form `'foo'`. -/
theorem applyFilters_stores_untrimmed :
    jsTrim " foo " = "foo" ∧
    objGet (applyFilters (State.initial Template.blank) [("search", " foo ")]
      (.success [] ⟨1, 1, 0, false, false⟩)).1.currentFilters "search" = some " foo " ∧
    objGet (applyFilters (State.initial Template.blank) [("search", " foo ")]
      (.success [] ⟨1, 1, 0, false, false⟩)).1.currentFilters "search"
        ≠ some (jsTrim " foo ") := by
  decide

/-- A form with a kept field named `k` splits at the last kept field of that name. -/
theorem last_kept_field (form : List (String × String)) (k v : String)
    (hmem : (k, v) ∈ form) (hv : ∃ c ∈ v.data, isJsWhiteSpace c = false) :
    ∃ pre w post, form = pre ++ (k, w) :: post ∧ (∃ c ∈ w.data, isJsWhiteSpace c = false) ∧
      ∀ u, (k, u) ∈ post → ∀ c ∈ u.data, isJsWhiteSpace c = true := by
  induction form generalizing v with
  | nil => simp at hmem
  | cons p rest ih =>
    by_cases hlater : ∃ u, (k, u) ∈ rest ∧ ∃ c ∈ u.data, isJsWhiteSpace c = false
    · obtain ⟨u, hu, hc⟩ := hlater
      obtain ⟨pre, w, post, hform, hw, hpost⟩ := ih u hu hc
      exact ⟨p :: pre, w, post, by rw [hform, List.cons_append], hw, hpost⟩
    · have hblank : ∀ u, (k, u) ∈ rest → ∀ c ∈ u.data, isJsWhiteSpace c = true := by
        intro u hu c hc
        by_contra hne
        exact hlater ⟨u, hu, c, hc, by simpa using hne⟩
      rcases List.mem_cons.1 hmem with h | h
      · exact ⟨[], v, rest, by rw [← h, List.nil_append], hv, hblank⟩
      · obtain ⟨c, hc, hw⟩ := hv
        rw [hblank v h c hc] at hw
        exact Bool.noConfusion hw

/-- The value `collectFilters` stores under a name other than `__proto__` is the value, as
entered, of the last kept field of that name. -/
theorem objGet_collectFilters (pre post : List (String × String)) (k v : String)
    (hk : k ≠ "__proto__") (hv : ∃ c ∈ v.data, isJsWhiteSpace c = false)
    (hlast : ∀ u, (k, u) ∈ post → ∀ c ∈ u.data, isJsWhiteSpace c = true) :
    objGet (collectFilters (pre ++ (k, v) :: post)) k = some v := by
  have hvt : strTruthy (jsTrim v) = true := (strTruthy_jsTrim_iff v).2 hv
  unfold collectFilters
  rw [List.foldl_append, List.foldl_cons, objGet_foldl_keep]
  · simp only [hvt, if_true]
    rw [objGet_objAssign _ k v k hk, if_pos rfl]
  · intro kv hkv hname
    rw [Bool.eq_false_iff]
    intro ht
    obtain ⟨c, hc, hw⟩ := (strTruthy_jsTrim_iff kv.2).1 ht
    have hmem : (k, kv.2) ∈ post := by
      rw [← hname]
      exact hkv
    rw [hlast kv.2 hmem c hc] at hw
    exact Bool.noConfusion hw

/-- C4, amended. For every form field whose value contains a character that is not white space
and whose name `k` is not `__proto__`, the value `applyFilters` stores in `currentFilters` under
`k` is a field value as entered, white space at its ends included (the trimmed value only
decides whether a field is kept): it is the value of the last field named `k` whose value
contains a character that is not white space, so the field's own value when no such field
follows it. -/
theorem applyFilters_stores_value (s : State) (out : ListingOutcome) (k : String)
    (hk : k ≠ "__proto__") :
    (∀ (pre post : List (String × String)) (v : String),
      (∃ c ∈ v.data, isJsWhiteSpace c = false) →
      (∀ u, (k, u) ∈ post → ∀ c ∈ u.data, isJsWhiteSpace c = true) →
      objGet (applyFilters s (pre ++ (k, v) :: post) out).1.currentFilters k = some v) ∧
    (∀ (form : List (String × String)) (v : String), (k, v) ∈ form →
      (∃ c ∈ v.data, isJsWhiteSpace c = false) →
      ∃ pre w post, form = pre ++ (k, w) :: post ∧
        (∃ c ∈ w.data, isJsWhiteSpace c = false) ∧
        (∀ u, (k, u) ∈ post → ∀ c ∈ u.data, isJsWhiteSpace c = true) ∧
        objGet (applyFilters s form out).1.currentFilters k = some w) := by
  have hcf : ∀ form, (applyFilters s form out).1.currentFilters = collectFilters form :=
    fun form => (loadFilteredScenes_filters
      { s with currentFilters := collectFilters form } 1 out).1
  constructor
  · intro pre post v hv hlast
    rw [hcf]
    exact objGet_collectFilters pre post k v hk hv hlast
  · intro form v hmem hv
    obtain ⟨pre, w, post, hform, hw, hpost⟩ := last_kept_field form k v hmem hv
    refine ⟨pre, w, post, hform, hw, hpost, ?_⟩
    rw [hcf, hform]
    exact objGet_collectFilters pre post k w hk hw hpost

theorem applyFilters_stores_value_witness :
    "search" ≠ "__proto__" ∧
    objGet (applyFilters (State.initial Template.blank)
      ([("search", "first")] ++ ("search", " foo ") :: [("filter_reason", ""), ("search", " ")])
      .fetchError).1.currentFilters "search" = some " foo " :=
  ⟨by decide,
   (applyFilters_stores_value (State.initial Template.blank) .fetchError "search"
      (by decide)).1 [("search", "first")] [("filter_reason", ""), ("search", " ")] " foo "
      ⟨'f', by decide, by decide⟩
      (by
        intro u hu
        simp only [List.mem_cons, Prod.mk.injEq, List.mem_singleton, List.not_mem_nil] at hu
        rcases hu with ⟨h, _⟩ | ⟨_, h⟩ | h
        · exact absurd h (by decide)
        · rw [h]
          decide
        · exact absurd h id)⟩

/-- C5, as stated, fails: for the form whose only field is `search = "foo"` the query string is
`page=1&per_page=20&search=foo`, which does not contain `search=foo&page=1&per_page=20`. -/
theorem applyFilters_query_order :
    listingQuery 1 20 (applyFilters (State.initial Template.blank) [("search", "foo")]
      .fetchError).1.currentFilters = "page=1&per_page=20&search=foo" ∧
    ¬ ("search=foo&page=1&per_page=20".data <:+:
        (listingQuery 1 20 (applyFilters (State.initial Template.blank) [("search", "foo")]
          .fetchError).1.currentFilters).data) := by
  decide

theorem collectFilters_search_foo (form : List (String × String))
    (hmem : ("search", "foo") ∈ form)
    (hrest : ∀ kv ∈ form, kv = ("search", "foo") ∨ kv.2 = "") :
    collectFilters form = [("search", "foo")] := by
  have hfix : ∀ l : List (String × String),
      (∀ kv ∈ l, kv = ("search", "foo") ∨ kv.2 = "") →
      l.foldl (fun o kv => if strTruthy (jsTrim kv.2) then objAssign o kv.1 kv.2 else o)
        [("search", "foo")] = [("search", "foo")] := by
    intro l
    induction l with
    | nil => intro _; rfl
    | cons p rest ih =>
      intro h
      rw [List.foldl_cons]
      rcases h p (by simp) with rfl | hp
      · have h1 : (if strTruthy (jsTrim ("search", "foo").2) = true
            then objAssign [("search", "foo")] ("search", "foo").1 ("search", "foo").2
            else [("search", "foo")]) = [("search", "foo")] := by decide
        rw [h1]
        exact ih (fun kv hkv => h kv (List.mem_cons_of_mem _ hkv))
      · have h1 : strTruthy (jsTrim p.2) = false := by rw [hp]; decide
        rw [h1]
        exact ih (fun kv hkv => h kv (List.mem_cons_of_mem _ hkv))
  unfold collectFilters
  induction form with
  | nil => simp at hmem
  | cons p rest ih =>
    rw [List.foldl_cons]
    rcases hrest p (by simp) with rfl | hp
    · have h1 : (if strTruthy (jsTrim ("search", "foo").2) = true
          then objAssign [] ("search", "foo").1 ("search", "foo").2
          else []) = [("search", "foo")] := by decide
      rw [h1]
      exact hfix rest (fun kv hkv => hrest kv (List.mem_cons_of_mem _ hkv))
    · have h1 : strTruthy (jsTrim p.2) = false := by rw [hp]; decide
      rw [h1]
      have hne : p ≠ ("search", "foo") := by
        rintro rfl
        exact absurd hp (by decide)
      rcases List.mem_cons.1 hmem with h | h
      · exact absurd h.symm hne
      · exact ih h (fun kv hkv => hrest kv (List.mem_cons_of_mem _ hkv))

/-- C5, amended. After `applyFilters` on a form whose only non-empty field is `search = "foo"`
(with 20 scenes per page) the query string of the listing request is
`page=1&per_page=20&search=foo`: it has the three parameters `page=1`, `per_page=20` and
`search=foo`, the filter after the two paging parameters. -/
theorem applyFilters_search_foo_query (s : State) (form : List (String × String))
    (out : ListingOutcome) (hper : s.perPage = 20) (hmem : ("search", "foo") ∈ form)
    (hrest : ∀ kv ∈ form, kv = ("search", "foo") ∨ kv.2 = "") :
    requestsOf (applyFilters s form out).2 =
      [Effect.fetchGet "/api/filtered-scenes?page=1&per_page=20&search=foo"] ∧
    listingQuery (applyFilters s form out).1.currentPage (applyFilters s form out).1.perPage
      (applyFilters s form out).1.currentFilters = "page=1&per_page=20&search=foo" := by
  have hl := loadFilteredScenes_filters { s with currentFilters := collectFilters form } 1 out
  have hc := collectFilters_search_foo form hmem hrest
  constructor
  · show requestsOf (loadFilteredScenes _ 1 out).2 = _
    rw [hl.2.2.2]
    show [Effect.fetchGet (listingUrl 1 s.perPage (collectFilters form))] = _
    rw [hper, hc]
    decide
  · show listingQuery (loadFilteredScenes _ 1 out).1.currentPage
      (loadFilteredScenes _ 1 out).1.perPage (loadFilteredScenes _ 1 out).1.currentFilters = _
    rw [hl.1, hl.2.1, hl.2.2.1]
    show listingQuery 1 s.perPage (collectFilters form) = _
    rw [hper, hc]
    decide

theorem applyFilters_search_foo_query_witness :
    (State.initial Template.blank).perPage = 20 ∧
    requestsOf (applyFilters (State.initial Template.blank)
      [("search", "foo"), ("filter_reason", ""), ("date_from", "")] .fetchError).2 =
      [Effect.fetchGet "/api/filtered-scenes?page=1&per_page=20&search=foo"] :=
  ⟨rfl,
   (applyFilters_search_foo_query (State.initial Template.blank)
      [("search", "foo"), ("filter_reason", ""), ("date_from", "")] .fetchError rfl
      (by decide) (by decide)).1⟩

/-! ## `parseInt` reads back what the row template wrote -/

theorem digitChar_range (d : Nat) (h : d < 10) :
    48 ≤ (Nat.digitChar d).toNat ∧ (Nat.digitChar d).toNat ≤ 57 ∧
    (Nat.digitChar d).toNat - 48 = d := by
  interval_cases d <;> decide

theorem digitValue_digitChar (d : Nat) (h : d < 10) :
    digitValue 10 (Nat.digitChar d) = some d := by
  obtain ⟨h1, h2, h3⟩ := digitChar_range d h
  unfold digitValue
  simp only [h1, h2, and_self, if_true, h3]

theorem readDigits_cons_digit (r : Nat) (c : Char) (cs : List Char) (acc d : Nat) (seen : Bool)
    (h : digitValue r c = some d) :
    readDigits r (c :: cs) acc seen = readDigits r cs (acc * r + d) true := by
  simp only [readDigits, h]

theorem readDigits_toDigitsCore (fuel n : Nat) (ds : List Char) (seen : Bool)
    (h : n < fuel) :
    readDigits 10 (Nat.toDigitsCore 10 fuel n ds) 0 seen = readDigits 10 ds n true := by
  induction fuel generalizing n ds seen with
  | zero => omega
  | succ fuel ih =>
    unfold Nat.toDigitsCore
    have hd := digitValue_digitChar (n % 10) (Nat.mod_lt _ (by decide))
    by_cases h0 : n / 10 = 0
    · simp only [h0, if_true]
      rw [readDigits_cons_digit 10 _ ds 0 (n % 10) seen hd]
      have : 0 * 10 + n % 10 = n := by omega
      rw [this]
    · simp only [h0, if_false]
      rw [ih (n / 10) _ seen (by omega), readDigits_cons_digit 10 _ ds (n / 10) (n % 10) true hd]
      have : n / 10 * 10 + n % 10 = n := by omega
      rw [this]

theorem toDigitsCore_chars (fuel n : Nat) (ds : List Char) :
    ∀ c ∈ Nat.toDigitsCore 10 fuel n ds, c ∈ ds ∨ (48 ≤ c.toNat ∧ c.toNat ≤ 57) := by
  induction fuel generalizing n ds with
  | zero =>
    intro c hc
    exact Or.inl hc
  | succ fuel ih =>
    intro c hc
    unfold Nat.toDigitsCore at hc
    have hd := digitChar_range (n % 10) (Nat.mod_lt _ (by decide))
    by_cases h0 : n / 10 = 0
    · simp only [h0, if_true] at hc
      rcases List.mem_cons.1 hc with rfl | hc
      · exact Or.inr ⟨hd.1, hd.2.1⟩
      · exact Or.inl hc
    · simp only [h0, if_false] at hc
      rcases ih _ _ c hc with hc | hc
      · rcases List.mem_cons.1 hc with rfl | hc
        · exact Or.inr ⟨hd.1, hd.2.1⟩
        · exact Or.inl hc
      · exact Or.inr hc

theorem toDigitsCore_ne_nil (fuel n : Nat) (ds : List Char) (h : 0 < fuel) :
    Nat.toDigitsCore 10 fuel n ds ≠ [] := by
  induction fuel generalizing n ds with
  | zero => omega
  | succ fuel ih =>
    unfold Nat.toDigitsCore
    by_cases h0 : n / 10 = 0
    · simp [h0]
    · simp only [h0, if_false]
      cases fuel with
      | zero => simp [Nat.toDigitsCore]
      | succ f => exact ih _ _ (Nat.succ_pos f)

theorem isJsWhiteSpace_digit (c : Char) (h : 48 ≤ c.toNat ∧ c.toNat ≤ 57) :
    isJsWhiteSpace c = false := by
  unfold isJsWhiteSpace
  simp only [Bool.or_eq_false_iff, Bool.and_eq_false_imp, beq_eq_false_iff_ne, ne_eq,
    decide_eq_true_eq, decide_eq_false_iff_not]
  omega

theorem stripHexPrefix_digits (l : List Char) (h : ∀ c ∈ l, 48 ≤ c.toNat ∧ c.toNat ≤ 57) :
    stripHexPrefix l = none := by
  unfold stripHexPrefix
  split
  · rename_i rest
    exact absurd (h 'x' (by simp)) (by decide)
  · rename_i rest
    exact absurd (h 'X' (by simp)) (by decide)
  · rfl

theorem parseMagnitude_toDigits (m : Nat) : parseMagnitude (Nat.toDigits 10 m) = some m := by
  unfold parseMagnitude
  have hall : ∀ c ∈ Nat.toDigits 10 m, 48 ≤ c.toNat ∧ c.toNat ≤ 57 := by
    intro c hc
    rcases toDigitsCore_chars (m + 1) m [] c hc with h | h
    · simp at h
    · exact h
  rw [stripHexPrefix_digits _ hall]
  show readDigits 10 (Nat.toDigitsCore 10 (m + 1) m []) 0 false = some m
  rw [readDigits_toDigitsCore (m + 1) m [] false (Nat.lt_succ_self m)]
  rfl

theorem roundNumber_of_lt (x : Nat) (h : x < twoPow53) : roundNumber x = x := by
  unfold roundNumber
  rw [if_pos h]

theorem natToText_of_lt (x : Nat) (h : x < twoPow53) : natToText x = Nat.toDigits 10 x := by
  have hs : shortestDecimal x = x := by
    unfold shortestDecimal
    rw [if_pos h]
  have hlt : x < 10 ^ 21 := by
    unfold twoPow53 at h
    omega
  have hlen : (Nat.toDigits 10 x).length ≤ 21 :=
    Nat.toDigitsCore_length 10 (by decide) (x + 1) x 21 hlt (by decide)
  unfold natToText
  rw [hs]
  simp only [hlen, if_true]

theorem intToString_ofNat (m : Nat) (h : m < twoPow53) :
    (intToString (Int.ofNat m)).data = Nat.toDigits 10 m := by
  have hov : overflows (Int.ofNat m).natAbs = false := by
    show overflows m = false
    unfold overflows
    rw [if_pos h]
  have hneg : ¬ (Int.ofNat m < 0) := by
    have : (0 : Int) ≤ Int.ofNat m := Int.ofNat_nonneg m
    omega
  unfold intToString
  rw [hov]
  simp only [Bool.false_eq_true, if_false, hneg]
  show natToText (roundNumber m) = _
  rw [roundNumber_of_lt m h, natToText_of_lt m h]

theorem intToString_negSucc (m : Nat) (h : m + 1 < twoPow53) :
    (intToString (Int.negSucc m)).data = '-' :: Nat.toDigits 10 (m + 1) := by
  have hov : overflows (Int.negSucc m).natAbs = false := by
    show overflows (m + 1) = false
    unfold overflows
    rw [if_pos h]
  have hneg : Int.negSucc m < 0 := Int.negSucc_lt_zero m
  unfold intToString
  rw [hov]
  simp only [Bool.false_eq_true, if_false, hneg, if_true]
  show '-' :: natToText (roundNumber (m + 1)) = _
  rw [roundNumber_of_lt (m + 1) h, natToText_of_lt (m + 1) h]

theorem parseInt_ofNat (m : Nat) (h : m < twoPow53) :
    parseInt (intToString (Int.ofNat m)) = some (Int.ofNat m) := by
  have hs : (intToString (Int.ofNat m)).data = Nat.toDigits 10 m := intToString_ofNat m h
  have hall : ∀ c ∈ Nat.toDigits 10 m, 48 ≤ c.toNat ∧ c.toNat ≤ 57 := by
    intro c hc
    rcases toDigitsCore_chars (m + 1) m [] c hc with h | h
    · simp at h
    · exact h
  have hne : Nat.toDigits 10 m ≠ [] := toDigitsCore_ne_nil (m + 1) m [] (Nat.succ_pos m)
  unfold parseInt
  rw [hs]
  cases hL : Nat.toDigits 10 m with
  | nil => exact absurd hL hne
  | cons c cs =>
    have hc : 48 ≤ c.toNat ∧ c.toNat ≤ 57 := hall c (by rw [hL]; simp)
    have hw : isJsWhiteSpace c = false := isJsWhiteSpace_digit c hc
    have hpm : parseMagnitude (c :: cs) = some m := by rw [← hL]; exact parseMagnitude_toDigits m
    simp only [List.dropWhile_cons, hw, Bool.false_eq_true, if_false]
    split
    · rename_i rest heq
      have : c = '-' := (List.cons.inj heq).1
      subst this
      exact absurd hc (by decide)
    · rename_i rest heq
      have : c = '+' := (List.cons.inj heq).1
      subst this
      exact absurd hc (by decide)
    · rw [hpm]
      show some (Int.ofNat (roundNumber m)) = _
      rw [roundNumber_of_lt m h]

theorem parseInt_negSucc (m : Nat) (h : m + 1 < twoPow53) :
    parseInt (intToString (Int.negSucc m)) = some (Int.negSucc m) := by
  have hs : (intToString (Int.negSucc m)).data = '-' :: Nat.toDigits 10 (m + 1) :=
    intToString_negSucc m h
  unfold parseInt
  rw [hs]
  have hw : isJsWhiteSpace '-' = false := by decide
  simp only [List.dropWhile_cons, hw, Bool.false_eq_true, if_false]
  rw [parseMagnitude_toDigits]
  show some (-(roundNumber (m + 1) : Int)) = _
  rw [roundNumber_of_lt (m + 1) h]
  rfl

/-- `parseInt` applied to the text of a safe integer gives the integer back. -/
theorem parseInt_intToString (n : Int) (h : isSafeInteger n = true) :
    parseInt (intToString n) = some n := by
  have hn : n.natAbs < twoPow53 := by
    unfold isSafeInteger at h
    exact of_decide_eq_true h
  cases n with
  | ofNat m => exact parseInt_ofNat m hn
  | negSucc m => exact parseInt_negSucc m hn

/-! ## The selection across page loads -/

theorem mem_addAllRows (rs : List Row) (sel : List SceneKey) (y : SceneKey)
    (hsafe : ∀ r ∈ rs, isSafeInteger r.sceneId = true)
    (h : y ∈ addAllRows sel rs) : y ∈ sel ∨ ∃ r ∈ rs, y = some r.sceneId := by
  unfold addAllRows at h
  induction rs generalizing sel with
  | nil => exact Or.inl h
  | cons r rest ih =>
    rw [List.foldl_cons] at h
    rcases ih _ (fun q hq => hsafe q (List.mem_cons_of_mem _ hq)) h with h1 | ⟨q, hq, hy⟩
    · rcases (mem_setAdd _ _ _).1 h1 with h2 | h2
      · exact Or.inl h2
      · right
        refine ⟨r, by simp, ?_⟩
        rw [h2, Row.idAttr, parseInt_intToString r.sceneId (hsafe r (by simp))]
    · exact Or.inr ⟨q, List.mem_cons_of_mem _ hq, hy⟩

theorem toggleSelectAll_selected (s : State) (y : SceneKey)
    (hsafe : ∀ n ∈ s.renderedIds, isSafeInteger n = true)
    (h : y ∈ (toggleSelectAll s).selectedScenes) :
    y ∈ s.selectedScenes ∨ ∃ n ∈ s.renderedIds, y = some n := by
  have hrows : ∀ r ∈ s.tableBody.rowList, isSafeInteger r.sceneId = true :=
    fun r hr => hsafe r.sceneId (List.mem_map.2 ⟨r, hr, rfl⟩)
  unfold toggleSelectAll at h
  simp only [updateAllSceneRowHighlights_selected, updateBulkActionsDisplay_selected] at h
  split at h
  · rcases mem_addAllRows _ _ _ hrows h with h1 | ⟨r, hr, hy⟩
    · exact Or.inl h1
    · exact Or.inr ⟨r.sceneId, List.mem_map.2 ⟨r, hr, rfl⟩, hy⟩
  · simp at h

theorem step_selected (s : State) (op : Op) (P : SceneKey → Prop)
    (hsel : ∀ x ∈ s.selectedScenes, P x) (hrows : ∀ n ∈ s.renderedIds, P (some n))
    (hsafe : ∀ n ∈ s.renderedIds, isSafeInteger n = true)
    (hop : fromRows s [op] = true) :
    ∀ x ∈ (step s op).selectedScenes, P x := by
  intro x hx
  cases op with
  | toggleSceneSelection sceneId =>
    simp only [step, toggleSceneSelection_selected] at hx
    have hin : sceneId ∈ s.renderedIds.map some := by
      simpa [fromRows] using hop
    obtain ⟨n, hn, rfl⟩ := List.mem_map.1 hin
    split at hx
    · exact hsel x ((mem_setDelete _ _ _).1 hx).1
    · rcases (mem_setAdd _ _ _).1 hx with h | rfl
      · exact hsel x h
      · exact hrows n hn
  | toggleSelectAll boxChecked =>
    rcases toggleSelectAll_selected { s with selectAllChecked := boxChecked } x hsafe hx
      with h | ⟨n, hn, rfl⟩
    · exact hsel x h
    · exact hrows n hn
  | deselectAll =>
    have : (step s .deselectAll).selectedScenes = [] := rfl
    rw [this] at hx
    simp at hx
  | applyFilters form out =>
    simp only [step, applyFilters, loadFilteredScenes_selected] at hx
    exact hsel x hx
  | clearFilters out =>
    simp only [step, clearFilters, loadFilteredScenes_selected] at hx
    exact hsel x hx
  | loadFilteredScenes page out =>
    simp only [step, loadFilteredScenes_selected] at hx
    exact hsel x hx

theorem run_selected (ops : List Op) (s : State) (P : SceneKey → Prop)
    (hsel : ∀ x ∈ s.selectedScenes, P x) (hrows : ∀ n ∈ renderedDuring s ops, P (some n))
    (hsafe : ∀ n ∈ renderedDuring s ops, isSafeInteger n = true)
    (hops : fromRows s ops = true) :
    ∀ x ∈ (run s ops).selectedScenes, P x := by
  induction ops generalizing s with
  | nil => exact hsel
  | cons op ops ih =>
    have hhead : fromRows s [op] = true := by
      simp only [fromRows, Bool.and_eq_true] at hops ⊢
      exact ⟨hops.1, trivial⟩
    have htail : fromRows (step s op) ops = true := by
      simp only [fromRows, Bool.and_eq_true] at hops
      exact hops.2
    have hnow : ∀ n ∈ s.renderedIds, P (some n) :=
      fun n hn => hrows n (by simp only [renderedDuring, List.mem_append]; exact Or.inl hn)
    have hlater : ∀ n ∈ renderedDuring (step s op) ops, P (some n) :=
      fun n hn => hrows n (by simp only [renderedDuring, List.mem_append]; exact Or.inr hn)
    have hsafeNow : ∀ n ∈ s.renderedIds, isSafeInteger n = true :=
      fun n hn => hsafe n (by simp only [renderedDuring, List.mem_append]; exact Or.inl hn)
    have hsafeLater : ∀ n ∈ renderedDuring (step s op) ops, isSafeInteger n = true :=
      fun n hn => hsafe n (by simp only [renderedDuring, List.mem_append]; exact Or.inr hn)
    exact ih (step s op) (step_selected s op P hsel hnow hsafeNow hhead) hlater hsafeLater htail

/-- C6, as stated, fails: after page 1 is loaded, the row of scene 1 ticked and page 2 loaded,
scene 1 is still in `selectedScenes` although the page rendered last does not show it. It
also fails on a single page with a scene whose id is 10^21: the row template prints that id
as `1e+21`, `parseInt` reads it back as 1, and select-all selects 1. -/
theorem selection_outlives_page :
    fromRows (State.initial Template.blank) twoPageVisit = true ∧
    some 1 ∈ (run (State.initial Template.blank) twoPageVisit).selectedScenes ∧
    (1 : Int) ∉ (run (State.initial Template.blank) twoPageVisit).renderedIds ∧
    fromRows (State.initial Template.blank) hugeIdVisit = true ∧
    (run (State.initial Template.blank) hugeIdVisit).renderedIds = [1000000000000000000000] ∧
    (run (State.initial Template.blank) hugeIdVisit).selectedScenes = [some 1] := by
  decide

/-- C6, amended. When the ids of the scenes in the table are safe integers (below 2^53 in
magnitude), then in every state reached from the initial state by `toggleSceneSelection` (called
by the checkbox of a row in the table), `toggleSelectAll`, `deselectAll`, `applyFilters`,
`clearFilters` and `loadFilteredScenes`, every id in `selectedScenes` is the id of a scene that
was in the table at some moment, not necessarily in the page rendered last: `loadFilteredScenes`
(and with it `applyFilters` and `clearFilters`) leaves `selectedScenes` as it was. -/
theorem selection_within_rendered (t : Template) (ops : List Op)
    (h : fromRows (State.initial t) ops = true)
    (hsafe : ∀ n ∈ renderedDuring (State.initial t) ops, isSafeInteger n = true) :
    (∀ x ∈ (run (State.initial t) ops).selectedScenes,
      ∃ n ∈ renderedDuring (State.initial t) ops, x = some n) ∧
    (∀ (s : State) (page : Int) (out : ListingOutcome),
      (loadFilteredScenes s page out).1.selectedScenes = s.selectedScenes) := by
  refine ⟨?_, loadFilteredScenes_selected⟩
  apply run_selected ops (State.initial t)
    (fun x => ∃ n ∈ renderedDuring (State.initial t) ops, x = some n)
  · intro x hx
    simp [State.initial] at hx
  · exact fun n hn => ⟨n, hn, rfl⟩
  · exact hsafe
  · exact h

theorem selection_within_rendered_witness :
    fromRows (State.initial Template.blank) twoPageVisit = true ∧
    (∀ n ∈ renderedDuring (State.initial Template.blank) twoPageVisit,
      isSafeInteger n = true) ∧
    ∀ x ∈ (run (State.initial Template.blank) twoPageVisit).selectedScenes,
      ∃ n ∈ renderedDuring (State.initial Template.blank) twoPageVisit, x = some n :=
  ⟨by decide, by decide,
   (selection_within_rendered Template.blank twoPageVisit (by decide) (by decide)).1⟩

/-! ## Request bodies -/

/-- C11. The request body built by `createException`, and the one built by
`createBulkExceptions`, has an `expires_at` key if and only if the form's `type` value is
`temporary`; for every other type there is no `expires_at` key, whatever the form supplies. -/
theorem expires_at_iff_temporary (s : State) (form : List (String × String)) :
    ("expires_at" ∈ (exceptionRequestBody form).jsonKeys ↔
      formGet form "type" = some "temporary") ∧
    ("expires_at" ∈ (bulkRequestBody s form).jsonKeys ↔
      formGet form "type" = some "temporary") ∧
    (formGet form "type" ≠ some "temporary" →
      (exceptionRequestBody form).expires_at = none ∧
      (bulkRequestBody s form).expires_at = none) := by
  by_cases h : formGet form "type" = some "temporary"
  · simp [exceptionRequestBody, bulkRequestBody, ExceptionRequest.jsonKeys,
      BulkExceptionRequest.jsonKeys, h]
  · simp [exceptionRequestBody, bulkRequestBody, ExceptionRequest.jsonKeys,
      BulkExceptionRequest.jsonKeys, h]

theorem expires_at_iff_temporary_witness :
    formGet [("scene_id", "7"), ("type", "permanent"), ("expires_at", "2030-01-01T00:00")]
      "type" ≠ some "temporary" ∧
    formHas [("scene_id", "7"), ("type", "permanent"), ("expires_at", "2030-01-01T00:00")]
      "expires_at" = true ∧
    (exceptionRequestBody
      [("scene_id", "7"), ("type", "permanent"), ("expires_at", "2030-01-01T00:00")]).expires_at
      = none :=
  ⟨by decide, by decide,
   ((expires_at_iff_temporary State.sample
      [("scene_id", "7"), ("type", "permanent"), ("expires_at", "2030-01-01T00:00")]).2.2
      (by decide)).1⟩

/-! ## Formatting helpers -/

theorem formatFilterReason_known :
    formatFilterReason "already_downloaded" = .text "Already Downloaded" ∧
    formatFilterReason "unwanted_tags" = .text "Unwanted Tags" ∧
    formatFilterReason "studio_filter" = .text "Studio Filter" ∧
    formatFilterReason "date_range" = .text "Date Range" ∧
    formatFilterReason "duration_filter" = .text "Duration Filter" ∧
    formatFilterReason "rating_filter" = .text "Rating Filter" ∧
    formatFilterReason "custom_rules" = .text "Custom Rules" ∧
    getFilterReasonClass "already_downloaded" = .text "bg-info" ∧
    getFilterReasonClass "unwanted_tags" = .text "bg-warning" ∧
    getFilterReasonClass "studio_filter" = .text "bg-secondary" ∧
    getFilterReasonClass "date_range" = .text "bg-primary" ∧
    getFilterReasonClass "duration_filter" = .text "bg-success" ∧
    getFilterReasonClass "rating_filter" = .text "bg-danger" ∧
    getFilterReasonClass "custom_rules" = .text "bg-dark" := by
  decide

theorem lookup_eq_none_of_not_mem (l : List (String × String)) (r : String)
    (h : r ∉ l.map Prod.fst) : l.lookup r = none := by
  induction l with
  | nil => rfl
  | cons p rest ih =>
    obtain ⟨a, b⟩ := p
    simp only [List.map_cons, List.mem_cons, not_or] at h
    have hne : (r == a) = false := beq_eq_false_iff_ne.2 h.1
    rw [List.lookup_cons, hne]
    exact ih h.2

/-- A code outside the table that is not the name of a member of `Object.prototype` passes
through as text, with the default colour. -/
theorem formatFilterReason_other (r : String) (hr : r ∉ reasons.map Prod.fst)
    (hp : r ∉ objectPrototypeKeys) :
    formatFilterReason r = .text r ∧ getFilterReasonClass r = .text "bg-secondary" := by
  have hc : r ∉ classes.map Prod.fst := hr
  have hcont : objectPrototypeKeys.contains r = false := by
    rw [Bool.eq_false_iff]
    intro h
    exact hp (by simpa using h)
  unfold formatFilterReason getFilterReasonClass
  rw [lookup_eq_none_of_not_mem reasons r hr, lookup_eq_none_of_not_mem classes r hc]
  simp only [hcont, Bool.false_eq_true, if_false, and_self]

/-- C15 at the code `constructor`: it is none of the seven codes, yet `formatFilterReason` does
not hand it back as text and `getFilterReasonClass` does not give `bg-secondary`; both lookups
find the member `constructor` that the tables inherit from `Object.prototype`. -/
theorem formatFilterReason_constructor :
    "constructor" ∉ reasons.map Prod.fst ∧
    formatFilterReason "constructor" = .inherited "constructor" ∧
    formatFilterReason "constructor" ≠ .text "constructor" ∧
    getFilterReasonClass "constructor" = .inherited "constructor" ∧
    getFilterReasonClass "constructor" ≠ .text "bg-secondary" := by
  decide

/-! ## Rendering a listing -/

/-- C16. For a listing response with status `success`, no scenes and at most one page, the
table body is the single row with the notice that no filtered scenes were found (no scene
rows), and the pagination list is empty. -/
theorem empty_listing (s : State) (page : Int) (p : Pagination) (h : p.pages ≤ 1) :
    (loadFilteredScenes s page (.success [] p)).1.tableBody = .emptyState ∧
    (loadFilteredScenes s page (.success [] p)).1.tableBody.rowList = [] ∧
    (loadFilteredScenes s page (.success [] p)).1.tableBody.notice =
      some "No filtered scenes found matching your criteria" ∧
    (loadFilteredScenes s page (.success [] p)).1.pagination = [] ∧
    renderPagination p = [] := by
  have hp : renderPagination p = [] := by
    unfold renderPagination
    rw [if_pos h]
  refine ⟨rfl, rfl, rfl, ?_, hp⟩
  show renderPagination p = []
  exact hp

theorem empty_listing_witness :
    (⟨1, 1, 0, false, false⟩ : Pagination).pages ≤ 1 ∧
    (loadFilteredScenes State.sample 1 (.success [] ⟨1, 1, 0, false, false⟩)).1.tableBody
      = .emptyState ∧
    (loadFilteredScenes State.sample 1 (.success [] ⟨1, 1, 0, false, false⟩)).1.pagination
      = [] :=
  ⟨by decide,
   (empty_listing State.sample 1 ⟨1, 1, 0, false, false⟩ (by decide)).1,
   (empty_listing State.sample 1 ⟨1, 1, 0, false, false⟩ (by decide)).2.2.2.1⟩

/-! ## Statistics -/

theorem strTruthy_append_percent (t : String) : strTruthy (t ++ "%") = true := by
  unfold strTruthy
  have h : (t ++ "%").data = t.data ++ ['%'] := rfl
  rw [h]
  cases t.data <;> rfl

theorem orZero_falsy (v : JsVal) (h : v = .undefined ∨ v = .null ∨ v = .num 0) :
    orZero v = "0" := by
  rcases h with rfl | rfl | rfl <;> rfl

/-- C19. For every stats object `updateStatsDisplay` sets the exception-rate text to the string
form of `stats.exception_rate` followed by `%`: the concatenation is never empty, whatever the
string form, so the default `0%` is never taken, and an absent rate shows as `undefined%`; the
two counters do fall back to `0` when absent or zero. -/
theorem updateStatsDisplay_rate (s : State) :
    (updateStatsDisplay s).statsView.exceptionRate = s.stats.exception_rate.toStr ++ "%" ∧
    (∀ t : String, (if strTruthy (t ++ "%") then t ++ "%" else "0%") = t ++ "%") ∧
    (s.stats.exception_rate = .undefined →
      (updateStatsDisplay s).statsView.exceptionRate = "undefined%") ∧
    ((s.stats.total_filtered = .undefined ∨ s.stats.total_filtered = .num 0) →
      (updateStatsDisplay s).statsView.totalFiltered = "0") ∧
    ((s.stats.total_exceptions = .undefined ∨ s.stats.total_exceptions = .num 0) →
      (updateStatsDisplay s).statsView.totalExceptions = "0") := by
  have hrate : (updateStatsDisplay s).statsView.exceptionRate =
      s.stats.exception_rate.toStr ++ "%" := by
    show (if strTruthy (s.stats.exception_rate.toStr ++ "%") = true
      then s.stats.exception_rate.toStr ++ "%" else "0%") = _
    rw [if_pos (strTruthy_append_percent _)]
  refine ⟨hrate, ?_, ?_, ?_, ?_⟩
  · intro t
    rw [if_pos (strTruthy_append_percent t)]
  · intro h
    rw [hrate, h]
    rfl
  · intro h
    show orZero s.stats.total_filtered = "0"
    rcases h with h | h
    · exact orZero_falsy _ (Or.inl h)
    · exact orZero_falsy _ (Or.inr (Or.inr h))
  · intro h
    show orZero s.stats.total_exceptions = "0"
    rcases h with h | h
    · exact orZero_falsy _ (Or.inl h)
    · exact orZero_falsy _ (Or.inr (Or.inr h))

theorem updateStatsDisplay_rate_witness :
    State.sample.stats.exception_rate = .undefined ∧
    (updateStatsDisplay State.sample).statsView.exceptionRate = "undefined%" ∧
    (updateStatsDisplay State.sample).statsView.totalFiltered = "0" :=
  ⟨rfl, (updateStatsDisplay_rate State.sample).2.2.1 rfl,
   (updateStatsDisplay_rate State.sample).2.2.2.1 (Or.inl rfl)⟩

/-! ## Refreshing -/

theorem load_failure_text_ne (t : String) :
    "Failed to load filtered scenes: " ++ t ≠ "Failed to refresh data" := by
  intro h
  have hd : ("Failed to load filtered scenes: " ++ t).data = "Failed to refresh data".data :=
    congrArg String.data h
  have ha : ("Failed to load filtered scenes: " ++ t).data =
      "Failed to load filtered scenes: ".data ++ t.data := rfl
  rw [ha] at hd
  have ht := congrArg (List.take 11) hd
  rw [List.take_append_of_le_length (by decide)] at ht
  revert ht
  decide

theorem loadStats_no_alert (s : State) (out : StatsOutcome) (e : Effect)
    (he : e ∈ (loadStats s out).2) : e.isAlert = false := by
  cases out with
  | success data =>
    simp only [loadStats, List.mem_singleton] at he
    rw [he]; rfl
  | failure message =>
    simp only [loadStats, List.mem_cons, List.mem_singleton, List.not_mem_nil, or_false] at he
    rcases he with rfl | rfl <;> rfl
  | fetchError =>
    simp only [loadStats, List.mem_cons, List.mem_singleton, List.not_mem_nil, or_false] at he
    rcases he with rfl | rfl <;> rfl

theorem loadFilteredScenes_no_refresh_alert (s : State) (page : Int) (out : ListingOutcome) :
    showError "Failed to refresh data" ∉ (loadFilteredScenes s page out).2 := by
  intro he
  cases out with
  | success scenes pagination =>
    simp only [loadFilteredScenes, List.mem_singleton] at he
    exact Effect.noConfusion he
  | failure message =>
    simp only [loadFilteredScenes, List.mem_cons, List.mem_singleton, List.not_mem_nil,
      or_false] at he
    rcases he with he | he
    · exact Effect.noConfusion he
    · simp only [showError, Effect.alert.injEq, and_true] at he
      exact load_failure_text_ne _ he.symm
  | fetchError =>
    simp only [loadFilteredScenes, List.mem_cons, List.mem_singleton, List.not_mem_nil,
      or_false] at he
    rcases he with he | he | he
    · exact Effect.noConfusion he
    · exact Effect.noConfusion he
    · revert he
      decide

/-- C18. For every outcome of the stats request and of the listing request, `refreshData`
raises the success alert `Data refreshed successfully` and never the alert `Failed to refresh
data`, because the promises of `loadStats` and `loadFilteredScenes` are fulfilled in every case;
afterwards the refresh button is enabled again and has its original content. -/
theorem refreshData_always_succeeds (s : State) (button : RefreshButton) (stats : StatsOutcome)
    (listing : ListingOutcome) :
    showSuccess "Data refreshed successfully" ∈ (refreshData s button stats listing).2.2 ∧
    showError "Failed to refresh data" ∉ (refreshData s button stats listing).2.2 ∧
    loadStatsSettled stats = .fulfilled ∧
    loadFilteredScenesSettled listing = .fulfilled ∧
    (refreshData s button stats listing).2.1 =
      { innerHTML := button.innerHTML, disabled := false } := by
  have h1 : loadStatsSettled stats = .fulfilled := by cases stats <;> rfl
  have h2 : loadFilteredScenesSettled listing = .fulfilled := by cases listing <;> rfl
  have heff : (refreshData s button stats listing).2.2 =
      (loadStats s stats).2 ++ (loadFilteredScenes (loadStats s stats).1 s.currentPage listing).2
        ++ [showSuccess "Data refreshed successfully"] := by
    simp only [refreshData, h1, h2, promiseAll]
  refine ⟨?_, ?_, h1, h2, rfl⟩
  · rw [heff]
    simp
  · rw [heff]
    intro he
    rcases List.mem_append.1 he with he | he
    · rcases List.mem_append.1 he with he | he
      · have := loadStats_no_alert s stats _ he
        exact Bool.noConfusion this
      · exact loadFilteredScenes_no_refresh_alert _ _ _ he
    · rw [List.mem_singleton] at he
      revert he
      decide

/-! ## Pagination -/

theorem castList_eq_map (l : List Nat) :
    (do let a ← l; pure (a : Int) : List Int) = l.map (fun (k : Nat) => (k : Int)) := by
  show l.flatMap (fun a => [(a : Int)]) = _
  rw [List.map_eq_flatMap]

theorem renderPagination_eq (p : Pagination) (h : ¬ p.pages ≤ 1) :
    renderPagination p =
      [PageItem.previous (!p.has_prev) (p.page - 1)] ++ leadItems p ++ windowLinks p
        ++ trailItems p ++ [PageItem.next (!p.has_next) (p.page + 1)] := by
  unfold renderPagination
  rw [if_neg h]
  simp only [castList_eq_map, List.map_map]
  rfl

theorem pageNumbers_append (l1 l2 : List PageItem) :
    pageNumbers (l1 ++ l2) = pageNumbers l1 ++ pageNumbers l2 := by
  induction l1 with
  | nil => rfl
  | cons x rest ih =>
    cases x <;> simp [pageNumbers, ih]

theorem activePages_append (l1 l2 : List PageItem) :
    activePages (l1 ++ l2) = activePages l1 ++ activePages l2 := by
  induction l1 with
  | nil => rfl
  | cons x rest ih =>
    cases x with
    | page n a => cases a <;> simp [activePages, ih]
    | previous d t => simp [activePages, ih]
    | ellipsis => simp [activePages, ih]
    | next d t => simp [activePages, ih]

theorem pageNumbers_links (a q : Int) (l : List Nat) :
    pageNumbers (l.map (fun (k : Nat) => PageItem.page (a + (k : Int)) (a + (k : Int) == q))) =
      l.map (fun (k : Nat) => a + (k : Int)) := by
  induction l with
  | nil => rfl
  | cons x rest ih => simp [pageNumbers, ih]

theorem activePages_links (a q : Int) (n : Nat) :
    activePages ((List.range n).map
        (fun (k : Nat) => PageItem.page (a + (k : Int)) (a + (k : Int) == q))) =
      if a ≤ q ∧ q < a + n then [q] else [] := by
  induction n with
  | zero =>
    have h0 : ¬ (a ≤ q ∧ q < a + ((0 : Nat) : Int)) := by omega
    rw [if_neg h0]
    rfl
  | succ n ih =>
    rw [List.range_succ, List.map_append, activePages_append, ih]
    by_cases hq : a + (n : Int) = q
    · subst hq
      have h1 : ¬ (a ≤ a + (n : Int) ∧ a + (n : Int) < a + (n : Int)) := by omega
      have h2 : a ≤ a + (n : Int) ∧ a + (n : Int) < a + ((n + 1 : Nat) : Int) := by omega
      rw [if_neg h1, if_pos h2]
      simp [activePages]
    · have hb : (a + (n : Int) == q) = false := by simpa using hq
      simp only [List.map_cons, List.map_nil, hb, activePages, List.append_nil]
      by_cases h1 : a ≤ q ∧ q < a + (n : Int)
      · have h2 : a ≤ q ∧ q < a + ((n + 1 : Nat) : Int) := by omega
        simp only [h1, h2, and_self, if_true]
      · have h2 : ¬ (a ≤ q ∧ q < a + ((n + 1 : Nat) : Int)) := by omega
        simp only [h1, h2, if_false]

theorem mem_linkNumbers (a x : Int) (n : Nat) :
    x ∈ (List.range n).map (fun (k : Nat) => a + (k : Int)) ↔ a ≤ x ∧ x < a + n := by
  simp only [List.mem_map, List.mem_range]
  constructor
  · rintro ⟨k, hk, rfl⟩
    omega
  · intro h
    refine ⟨(x - a).toNat, ?_, ?_⟩ <;> omega

theorem linkNumbers_increasing (a : Int) (n : Nat) :
    ((List.range n).map (fun (k : Nat) => a + (k : Int))).Pairwise (fun x y => x < y) := by
  rw [List.pairwise_map]
  exact (List.pairwise_lt_range n).imp (fun h => by omega)

theorem pageNumbers_render (p : Pagination) (h : ¬ p.pages ≤ 1) :
    pageNumbers (renderPagination p) =
      (if max 1 (p.page - 2) > 1 then [1] else []) ++
      (List.range (min p.pages (p.page + 2) - max 1 (p.page - 2) + 1).toNat).map
        (fun (k : Nat) => max 1 (p.page - 2) + (k : Int)) ++
      (if min p.pages (p.page + 2) < p.pages then [p.pages] else []) := by
  rw [renderPagination_eq p h]
  simp only [pageNumbers_append, windowLinks, pageNumbers_links]
  have hl : pageNumbers (leadItems p) = (if max 1 (p.page - 2) > 1 then [1] else []) := by
    unfold leadItems
    by_cases a1 : max 1 (p.page - 2) > 1
    · by_cases a2 : max 1 (p.page - 2) > 2 <;> simp [a1, a2, pageNumbers]
    · simp [a1, pageNumbers]
  have ht : pageNumbers (trailItems p) =
      (if min p.pages (p.page + 2) < p.pages then [p.pages] else []) := by
    unfold trailItems
    by_cases a1 : min p.pages (p.page + 2) < p.pages
    · by_cases a2 : min p.pages (p.page + 2) < p.pages - 1 <;> simp [a1, a2, pageNumbers]
    · simp [a1, pageNumbers]
  rw [hl, ht]
  simp [pageNumbers]

theorem activePages_render (p : Pagination) (h2 : 2 ≤ p.pages) (h1 : 1 ≤ p.page)
    (hp : p.page ≤ p.pages) : activePages (renderPagination p) = [p.page] := by
  rw [renderPagination_eq p (by omega)]
  simp only [activePages_append, windowLinks, activePages_links, leadItems, trailItems]
  have hw : max 1 (p.page - 2) ≤ p.page ∧
      p.page < max 1 (p.page - 2) +
        ((min p.pages (p.page + 2) - max 1 (p.page - 2) + 1).toNat : Int) := by
    omega
  rw [if_pos hw]
  have hl : activePages (if max 1 (p.page - 2) > 1 then
      PageItem.page 1 false :: (if max 1 (p.page - 2) > 2 then [PageItem.ellipsis] else [])
      else []) = [] := by
    by_cases a1 : max 1 (p.page - 2) > 1
    · by_cases a2 : max 1 (p.page - 2) > 2 <;> simp [a1, a2, activePages]
    · simp [a1, activePages]
  have ht : activePages (if min p.pages (p.page + 2) < p.pages then
      (if min p.pages (p.page + 2) < p.pages - 1 then [PageItem.ellipsis] else [])
        ++ [PageItem.page p.pages false]
      else []) = [] := by
    by_cases a1 : min p.pages (p.page + 2) < p.pages
    · by_cases a2 : min p.pages (p.page + 2) < p.pages - 1 <;> simp [a1, a2, activePages]
    · simp [a1, activePages]
  rw [hl, ht]
  rfl

theorem mem_pageNumbers_render (p : Pagination) (h : ¬ p.pages ≤ 1) (n : Int) :
    n ∈ pageNumbers (renderPagination p) ↔
      (max 1 (p.page - 2) > 1 ∧ n = 1) ∨
      (max 1 (p.page - 2) ≤ n ∧
        n < max 1 (p.page - 2) +
          ((min p.pages (p.page + 2) - max 1 (p.page - 2) + 1).toNat : Int)) ∨
      (min p.pages (p.page + 2) < p.pages ∧ n = p.pages) := by
  rw [pageNumbers_render p h, List.mem_append, List.mem_append, mem_linkNumbers]
  by_cases a1 : max 1 (p.page - 2) > 1 <;>
    by_cases a2 : min p.pages (p.page + 2) < p.pages <;>
    simp [a1, a2, or_assoc]

theorem pageNumbers_increasing (p : Pagination) (h2 : 2 ≤ p.pages) (hp : p.page ≤ p.pages) :
    (pageNumbers (renderPagination p)).Pairwise (fun x y => x < y) := by
  rw [pageNumbers_render p (by omega), List.pairwise_append, List.pairwise_append]
  refine ⟨⟨?_, linkNumbers_increasing _ _, ?_⟩, ?_, ?_⟩
  · by_cases a1 : max 1 (p.page - 2) > 1 <;> simp [a1]
  · intro a ha b hb
    rw [mem_linkNumbers] at hb
    by_cases a1 : max 1 (p.page - 2) > 1
    · simp only [a1, if_true, List.mem_singleton] at ha
      omega
    · simp [a1] at ha
  · by_cases a2 : min p.pages (p.page + 2) < p.pages <;> simp [a2]
  · intro a ha b hb
    by_cases a2 : min p.pages (p.page + 2) < p.pages
    · simp only [a2, if_true, List.mem_singleton] at hb
      rcases List.mem_append.1 ha with ha | ha
      · by_cases a1 : max 1 (p.page - 2) > 1
        · simp only [a1, if_true, List.mem_singleton] at ha
          omega
        · simp [a1] at ha
      · rw [mem_linkNumbers] at ha
        omega
    · simp [a2] at hb

/-- C17. For a pagination with at least two pages and a current page between 1 and the number of
pages, the numbered page links written by `renderPagination` are strictly increasing (so without
duplicates), lie between 1 and the number of pages, include 1, the current page, the last page
and every page of the window from `max(1, page-2)` to `min(pages, page+2)`, and the current page
is the one link marked active; the list is the previous button, the items before the window, the
window, the items after it and the next button, with an ellipsis before the window iff
`max(1, page-2) > 2` and after it iff `min(pages, page+2) < pages - 1`. -/
theorem renderPagination_links (p : Pagination) (h2 : 2 ≤ p.pages) (h1 : 1 ≤ p.page)
    (hp : p.page ≤ p.pages) :
    (pageNumbers (renderPagination p)).Pairwise (fun x y => x < y) ∧
    (pageNumbers (renderPagination p)).Nodup ∧
    (∀ n ∈ pageNumbers (renderPagination p), 1 ≤ n ∧ n ≤ p.pages) ∧
    1 ∈ pageNumbers (renderPagination p) ∧
    p.page ∈ pageNumbers (renderPagination p) ∧
    p.pages ∈ pageNumbers (renderPagination p) ∧
    (∀ n, max 1 (p.page - 2) ≤ n → n ≤ min p.pages (p.page + 2) →
      n ∈ pageNumbers (renderPagination p)) ∧
    activePages (renderPagination p) = [p.page] ∧
    renderPagination p =
      [PageItem.previous (!p.has_prev) (p.page - 1)] ++ leadItems p ++ windowLinks p
        ++ trailItems p ++ [PageItem.next (!p.has_next) (p.page + 1)] ∧
    (PageItem.ellipsis ∈ leadItems p ↔ max 1 (p.page - 2) > 2) ∧
    (PageItem.ellipsis ∈ trailItems p ↔ min p.pages (p.page + 2) < p.pages - 1) := by
  have hne : ¬ p.pages ≤ 1 := by omega
  have hinc := pageNumbers_increasing p h2 hp
  have hmem := mem_pageNumbers_render p hne
  refine ⟨hinc, ?_, ?_, ?_, ?_, ?_, ?_, activePages_render p h2 h1 hp,
    renderPagination_eq p hne, ?_, ?_⟩
  · exact hinc.imp (fun hxy => ne_of_lt hxy)
  · intro n hn
    rw [hmem] at hn
    omega
  · rw [hmem]
    omega
  · rw [hmem]
    omega
  · rw [hmem]
    omega
  · intro n hs he
    rw [hmem]
    omega
  · unfold leadItems
    by_cases a1 : max 1 (p.page - 2) > 1
    · by_cases a2 : max 1 (p.page - 2) > 2 <;> simp [a1, a2]
    · have a2 : ¬ max 1 (p.page - 2) > 2 := by omega
      simp [a1, a2]
  · unfold trailItems
    by_cases a1 : min p.pages (p.page + 2) < p.pages
    · by_cases a2 : min p.pages (p.page + 2) < p.pages - 1 <;> simp [a1, a2]
    · have a2 : ¬ min p.pages (p.page + 2) < p.pages - 1 := by omega
      simp [a1, a2]

theorem renderPagination_links_witness :
    (2 : Int) ≤ (⟨5, 10, 200, true, true⟩ : Pagination).pages ∧
    pageNumbers (renderPagination ⟨5, 10, 200, true, true⟩) = [1, 3, 4, 5, 6, 7, 10] ∧
    activePages (renderPagination ⟨5, 10, 200, true, true⟩) = [5] ∧
    (pageNumbers (renderPagination ⟨5, 10, 200, true, true⟩)).Pairwise (fun x y => x < y) :=
  ⟨by decide, by decide, by decide,
   (renderPagination_links ⟨5, 10, 200, true, true⟩ (by decide) (by decide) (by decide)).1⟩

/-! ## Replacing a class name and putting it back -/

theorem replaceFirstChars_at_head (pat rep rest : List Char) (hne : pat ≠ []) :
    replaceFirstChars pat rep (pat ++ rest) = rep ++ rest := by
  cases pat with
  | nil => exact absurd rfl hne
  | cons c cs =>
    have hp : (c :: cs).isPrefixOf (c :: (cs ++ rest)) = true := by
      rw [ List.isPrefixOf_iff_prefix]
      exact List.prefix_append (c :: cs) rest
    show replaceFirstChars (c :: cs) rep (c :: (cs ++ rest)) = rep ++ rest
    unfold replaceFirstChars
    rw [if_pos hp]
    have hd : List.drop (c :: cs).length (c :: (cs ++ rest)) = rest :=
      List.drop_left (c :: cs) rest
    rw [hd]

theorem replaceFirstChars_skip (pat rep : List Char) (c : Char) (cs : List Char)
    (h : ¬ pat <+: c :: cs) :
    replaceFirstChars pat rep (c :: cs) = c :: replaceFirstChars pat rep cs := by
  have hp : ¬ pat.isPrefixOf (c :: cs) = true := by
    rw [ List.isPrefixOf_iff_prefix]
    exact h
  conv_lhs => unfold replaceFirstChars
  rw [if_neg hp]

/-- A word that starts again inside a copy of itself shifted by `w` has a border. -/
theorem border_of_overlap (r w post : List Char) (hw : w.length < r.length)
    (h : r <+: w ++ (r ++ post)) : r.drop w.length = r.take (r.length - w.length) := by
  rw [List.prefix_iff_eq_take] at h
  rw [List.take_append_eq_append_take, List.take_of_length_le (Nat.le_of_lt hw),
    List.take_append_of_le_length (Nat.sub_le _ _)] at h
  have hd := congrArg (List.drop w.length) h
  rw [List.drop_left] at hd
  exact hd

theorem not_prefix_after_replace (pat rep : List Char) (hpat : pat ≠ [])
    (hub : ∀ k < rep.length, 0 < k → rep.drop k ≠ rep.take (rep.length - k))
    (xs : List Char) :
    ∀ w : List Char, w ≠ [] → ¬ rep <:+: w ++ xs →
      ¬ rep <+: w ++ replaceFirstChars pat rep xs := by
  induction xs with
  | nil =>
    intro w _ hin hpre
    have hnil : replaceFirstChars pat rep [] = [] := by
      unfold replaceFirstChars
      rw [if_neg hpat]
    rw [hnil] at hpre
    exact hin hpre.isInfix
  | cons x xs ih =>
    intro w hw hin hpre
    by_cases hp : pat <+: x :: xs
    · obtain ⟨post, hpost⟩ := hp
      rw [← hpost, replaceFirstChars_at_head pat rep post hpat] at hpre
      by_cases hlen : w.length < rep.length
      · have hb := border_of_overlap rep w post hlen hpre
        have hpos : 0 < w.length := List.length_pos.2 hw
        exact hub w.length hlen hpos hb
      · have hle : rep.length ≤ w.length := Nat.le_of_not_lt hlen
        have hrw : rep <+: w := by
          rw [List.prefix_iff_eq_take] at hpre ⊢
          rw [List.take_append_of_le_length hle] at hpre
          exact hpre
        exact hin (hrw.isInfix.trans (List.infix_append' [] w (x :: xs) |>.trans (by simp)))
    · rw [replaceFirstChars_skip pat rep x xs hp] at hpre
      have h1 : w ++ x :: replaceFirstChars pat rep xs =
          (w ++ [x]) ++ replaceFirstChars pat rep xs := by simp
      have h2 : w ++ x :: xs = (w ++ [x]) ++ xs := by simp
      rw [h1] at hpre
      rw [h2] at hin
      exact ih (w ++ [x]) (by simp) hin hpre

/-- Replacing the first `pat` by `rep` and then the first `rep` by `pat` gives the text back,
when the text has no `rep` of its own and `rep` does not overlap itself. -/
theorem replaceFirstChars_back (pat rep : List Char) (hpat : pat ≠ []) (hrep : rep ≠ [])
    (hub : ∀ k < rep.length, 0 < k → rep.drop k ≠ rep.take (rep.length - k))
    (xs : List Char) (hin : ¬ rep <:+: xs) :
    replaceFirstChars rep pat (replaceFirstChars pat rep xs) = xs := by
  induction xs with
  | nil =>
    have hnil : replaceFirstChars pat rep [] = [] := by
      unfold replaceFirstChars
      rw [if_neg hpat]
    rw [hnil]
    unfold replaceFirstChars
    rw [if_neg hrep]
  | cons x xs ih =>
    by_cases hp : pat <+: x :: xs
    · obtain ⟨post, hpost⟩ := hp
      rw [← hpost, replaceFirstChars_at_head pat rep post hpat,
        replaceFirstChars_at_head rep pat post hrep]
    · rw [replaceFirstChars_skip pat rep x xs hp]
      have hnp : ¬ rep <+: x :: replaceFirstChars pat rep xs :=
        not_prefix_after_replace pat rep hpat hub xs [x] (by simp) hin
      rw [replaceFirstChars_skip rep pat x _ hnp]
      have hin' : ¬ rep <:+: xs := fun h => hin (h.trans (List.infix_cons List.infix_rfl))
      rw [ih hin']

theorem jsReplace_back (s pat rep : String) (hpat : pat.data ≠ []) (hrep : rep.data ≠ [])
    (hub : ∀ k < rep.data.length, 0 < k →
      rep.data.drop k ≠ rep.data.take (rep.data.length - k))
    (hin : ¬ rep.data <:+: s.data) :
    jsReplace (jsReplace s pat rep) rep pat = s := by
  unfold jsReplace
  show String.mk (replaceFirstChars rep.data pat.data (replaceFirstChars pat.data rep.data s.data))
    = s
  rw [replaceFirstChars_back pat.data rep.data hpat hrep hub s.data hin]

theorem jsReplace_success_back (s : String) (hin : ¬ "btn-success".data <:+: s.data) :
    jsReplace (jsReplace s "btn-outline-success" "btn-success") "btn-success"
      "btn-outline-success" = s :=
  jsReplace_back s "btn-outline-success" "btn-success" (by decide) (by decide) (by decide) hin

theorem jsReplace_danger_back (s : String) (hin : ¬ "btn-danger".data <:+: s.data) :
    jsReplace (jsReplace s "btn-outline-success" "btn-danger") "btn-danger"
      "btn-outline-success" = s :=
  jsReplace_back s "btn-outline-success" "btn-danger" (by decide) (by decide) (by decide) hin

/-! ## The want buttons -/

/-- The handler of `whisparr-integration.js` treats every response that is not `ok` as a
failure, before reading the body. -/
theorem WhisparrIntegration_non2xx_fails (b : Button) (status : Nat) (statusText : String)
    (data : Option WantData) (h : ¬ (200 ≤ status ∧ status ≤ 299)) :
    (WhisparrIntegration.addToWant b (.received status statusText data)).settled =
      { innerHTML := failedLabel, disabled := true,
        className := jsReplace b.className "btn-outline-success" "btn-danger" } := by
  have hok : (WantResponse.received status statusText data).ok = false := by
    unfold WantResponse.ok
    rw [Bool.eq_false_iff]
    intro hh
    apply h
    simpa using hh
  simp only [WhisparrIntegration.addToWant, WhisparrIntegration.outcome, hok]
  rfl

/-- C13 at a response with status 500 whose body says `success: true`: the handlers of
`dashboard-whisparr.js` and `want-button-fix.js` read the body without looking at the status
and show the success state; the handler of `whisparr-integration.js` shows the failure state. -/
theorem non2xx_shows_added :
    (WantResponse.received 500 "Internal Server Error" (some ⟨true, .undefined⟩)).ok = false ∧
    (DashboardWhisparr.addSceneToWant Button.sample
      (.received 500 "Internal Server Error" (some ⟨true, .undefined⟩))).settled =
      { innerHTML := addedLabel, disabled := true, className := "btn btn-success" } ∧
    (WantButtonFix.addToWant Button.sample
      (.received 500 "Internal Server Error" (some ⟨true, .undefined⟩))).settled =
      { innerHTML := addedLabel, disabled := true, className := "btn btn-success" } ∧
    (WhisparrIntegration.addToWant Button.sample
      (.received 500 "Internal Server Error" (some ⟨true, .undefined⟩))).settled =
      { innerHTML := failedLabel, disabled := true, className := "btn btn-danger" } := by
  decide

/-- C14. For each of the three handlers a response with a 2xx status whose body has `success`
false, with any `error`, puts the button in the failure state: the label is the handler's
failure label, the class string is the original one with its first `btn-outline-success`
replaced by `btn-danger`, and neither the label shown while loading nor the label shown after
the response is the success label. -/
theorem success_false_fails (b : Button) (status : Nat) (statusText : String) (err : JsVal)
    (h : 200 ≤ status ∧ status ≤ 299) :
    (DashboardWhisparr.addSceneToWant b
      (.received status statusText (some ⟨false, err⟩))).settled =
      { innerHTML := failedLabel, disabled := true,
        className := jsReplace b.className "btn-outline-success" "btn-danger" } ∧
    (WhisparrIntegration.addToWant b
      (.received status statusText (some ⟨false, err⟩))).settled =
      { innerHTML := failedLabel, disabled := true,
        className := jsReplace b.className "btn-outline-success" "btn-danger" } ∧
    (WantButtonFix.addToWant b
      (.received status statusText (some ⟨false, err⟩))).settled =
      { innerHTML := errorLabel, disabled := true,
        className := jsReplace b.className "btn-outline-success" "btn-danger" } ∧
    (DashboardWhisparr.addSceneToWant b
      (.received status statusText (some ⟨false, err⟩))).loading.innerHTML ≠ addedLabel ∧
    (WhisparrIntegration.addToWant b
      (.received status statusText (some ⟨false, err⟩))).loading.innerHTML ≠ addedLabel ∧
    (WantButtonFix.addToWant b
      (.received status statusText (some ⟨false, err⟩))).loading.innerHTML ≠ addedLabel ∧
    failedLabel ≠ addedLabel ∧ errorLabel ≠ addedLabel := by
  have hok : (WantResponse.received status statusText (some ⟨false, err⟩)).ok = true := by
    unfold WantResponse.ok
    simpa using h
  refine ⟨?_, ?_, ?_, ?_, ?_, ?_, by decide, by decide⟩
  · simp only [DashboardWhisparr.addSceneToWant, DashboardWhisparr.outcome, readData]
    rfl
  · simp only [WhisparrIntegration.addToWant, WhisparrIntegration.outcome, hok, readData]
    rfl
  · simp only [WantButtonFix.addToWant, WantButtonFix.outcome, readData]
    rfl
  · show addingLabel ≠ addedLabel
    decide
  · show addingLabel ≠ addedLabel
    decide
  · have hl : (WantButtonFix.addToWant b
        (.received status statusText (some ⟨false, err⟩))).loading.innerHTML = addingLabel := by
      simp only [WantButtonFix.addToWant, WantButtonFix.outcome, readData]
      rfl
    rw [hl]
    decide

theorem success_false_fails_witness :
    (200 ≤ 200 ∧ 200 ≤ 299) ∧
    (WantButtonFix.addToWant Button.sample
      (.received 200 "OK" (some ⟨false, .str "already exists"⟩))).settled =
      { innerHTML := errorLabel, disabled := true, className := "btn btn-danger" } :=
  ⟨by decide,
   (success_false_fails Button.sample 200 "OK" (.str "already exists") (by decide)).2.2.1⟩

/-- C12, as stated, fails: `addSceneToWant` resets the class string to
`btn btn-sm btn-outline-success` whatever it was, and `addToWant` of `want-button-fix.js`
turns an original `btn-success` into `btn-outline-success`. -/
theorem reset_class_differs :
    (DashboardWhisparr.addSceneToWant Button.sample
      (.received 200 "OK" (some ⟨true, .undefined⟩))).final.className
      = "btn btn-sm btn-outline-success" ∧
    (DashboardWhisparr.addSceneToWant Button.sample
      (.received 200 "OK" (some ⟨true, .undefined⟩))).final.className
      ≠ Button.sample.className ∧
    (WantButtonFix.addToWant { Button.sample with className := "btn btn-success" }
      (.received 200 "OK" (some ⟨true, .undefined⟩))).final.className
      = "btn btn-outline-success" := by
  decide

/-- C12, amended. For each of the three handlers, every initial label and class string and
every outcome, after the reset the label is the original label and the button is enabled. The
class string after the reset is `btn btn-sm btn-outline-success` for `addSceneToWant`; for
`addToWant` of `want-button-fix.js` it is the original class string when that has no
`btn-success` of its own (success) or no `btn-danger` of its own (failure). -/
theorem reset_restores (b : Button) (r : WantResponse) :
    ((DashboardWhisparr.addSceneToWant b r).final.innerHTML = b.innerHTML ∧
      (DashboardWhisparr.addSceneToWant b r).final.disabled = false ∧
      (DashboardWhisparr.addSceneToWant b r).final.className
        = "btn btn-sm btn-outline-success") ∧
    ((WhisparrIntegration.addToWant b r).final.innerHTML = b.innerHTML ∧
      (WhisparrIntegration.addToWant b r).final.disabled = false) ∧
    ((WantButtonFix.addToWant b r).final.innerHTML = b.innerHTML ∧
      (WantButtonFix.addToWant b r).final.disabled = false ∧
      (WantButtonFix.outcome r = .ok () → ¬ "btn-success".data <:+: b.className.data →
        (WantButtonFix.addToWant b r).final.className = b.className) ∧
      (WantButtonFix.outcome r ≠ .ok () → ¬ "btn-danger".data <:+: b.className.data →
        (WantButtonFix.addToWant b r).final.className = b.className)) := by
  refine ⟨⟨rfl, rfl, rfl⟩, ⟨rfl, rfl⟩, ?_, ?_, ?_, ?_⟩
  · unfold WantButtonFix.addToWant
    cases WantButtonFix.outcome r <;> rfl
  · unfold WantButtonFix.addToWant
    cases WantButtonFix.outcome r <;> rfl
  · intro hok hin
    unfold WantButtonFix.addToWant
    rw [hok]
    exact jsReplace_success_back b.className hin
  · intro hne hin
    unfold WantButtonFix.addToWant
    cases hout : WantButtonFix.outcome r with
    | ok u => exact absurd hout hne
    | error e => exact jsReplace_danger_back b.className hin

theorem reset_restores_witness :
    WantButtonFix.outcome (.received 200 "OK" (some ⟨true, .undefined⟩)) = .ok () ∧
    ¬ "btn-success".data <:+: Button.sample.className.data ∧
    (WantButtonFix.addToWant Button.sample
      (.received 200 "OK" (some ⟨true, .undefined⟩))).final.className
      = Button.sample.className :=
  ⟨rfl, by decide,
   (reset_restores Button.sample (.received 200 "OK" (some ⟨true, .undefined⟩))).2.2.2.2.1
      rfl (by decide)⟩

end FilteredScenes
